import Mathlib

/-!
Verification of the ASTRA (Act State Representation Architecture) Python data
model (`astra_model/types.py`, Pydantic models) and its embedded JSON Schema
registry (`astra_model/schemas.py`, the `SCHEMAS` dict).

Embedding conventions:
* JSON values carry numbers as rationals (JSON numeric literals are exact
  decimals).  Python's int/float distinction collapses at the JSON level:
  an integral number decodes as a Python int, a non-integral one as float.
* Validation failure (Pydantic `ValidationError`, the spec's
  `SchemaViolation`) is embedded as `none`; no claim settled here depends
  on the error message text.
* Pydantic lax coercions (numeric strings for ints, etc.) are not modelled:
  every claim is settled on inputs whose fields carry the declared JSON
  type, where strict and lax validation agree.
* `model_dump` is embedded field by field in declaration order; unset
  optional fields (Python `None`) dump as an explicit JSON `null`
  (`exclude_none` is not set anywhere in the source).
-/

inductive Json where
  | null : Json
  | bool : Bool → Json
  | num  : ℚ → Json
  | str  : String → Json
  | arr  : List Json → Json
  | obj  : List (String × Json) → Json

namespace Astra

/-- First-match association lookup on a JSON object's key/value list
(encoders below emit distinct keys, matching Python `dict` access). -/
def jget : List (String × Json) → String → Option Json
  | [], _ => none
  | (k', v) :: t, k => if k = k' then some v else jget t k

def keysOf (kvs : List (String × Json)) : List String := kvs.map (·.1)

/-- Pydantic `model_config extra="forbid"`: every input key must be declared. -/
def checkClosed (kvs : List (String × Json)) (allowed : List String) : Option Unit :=
  if kvs.all (fun p => allowed.contains p.1) then some () else none

/-- Parse an optional field value: JSON `null` is Python `None`
(`Optional[...]`), otherwise the inner parser must succeed. -/
def optOf (f : Json → Option α) : Json → Option (Option α)
  | .null => some none
  | v => (f v).map some

/-- Required field (`Field(...)`): absent key is a validation error. -/
def getReq (kvs : List (String × Json)) (k : String) (f : Json → Option α) : Option α :=
  match jget kvs k with
  | none => none
  | some v => f v

/-- Optional field with default `None`: absent and `null` both give `none`. -/
def getOpt (kvs : List (String × Json)) (k : String) (f : Json → Option α) :
    Option (Option α) :=
  match jget kvs k with
  | none => some none
  | some v => optOf f v

/-- `Optional[T] = Field(d)` with a non-`None` default `d`: absent gives the
default, explicit `null` gives `None`. -/
def getOptDef (kvs : List (String × Json)) (k : String) (f : Json → Option α) (d : α) :
    Option (Option α) :=
  match jget kvs k with
  | none => some (some d)
  | some v => optOf f v

/-- Non-optional field with a default (`type: ActType = Field(ActType.ASK)`):
absent gives the default, present must parse (`null` is invalid). -/
def getReqDef (kvs : List (String × Json)) (k : String) (f : Json → Option α) (d : α) :
    Option α :=
  match jget kvs k with
  | none => some d
  | some v => f v

def asStr : Json → Option String
  | .str s => some s
  | _ => none

def asBool : Json → Option Bool
  | .bool b => some b
  | _ => none

def asRat : Json → Option ℚ
  | .num q => some q
  | _ => none

/-- `float` field constrained `ge=0.0, le=1.0` (confidence scores). -/
def asRat01 : Json → Option ℚ
  | .num q => if 0 ≤ q ∧ q ≤ 1 then some q else none
  | _ => none

/-- `int` field: an integral JSON number. -/
def asInt : Json → Option Int
  | .num q => if q.den = 1 then some q.num else none
  | _ => none

/-- `int` field constrained `ge=0`. -/
def asIntGe0 : Json → Option Int
  | .num q => if q.den = 1 ∧ 0 ≤ q.num then some q.num else none
  | _ => none

def asObjKVs : Json → Option (List (String × Json))
  | .obj kvs => some kvs
  | _ => none

def pList (f : Json → Option α) : List Json → Option (List α)
  | [] => some []
  | x :: xs => do
      let a ← f x
      let l ← pList f xs
      some (a :: l)

def asStrList : Json → Option (List String)
  | .arr xs => pList asStr xs
  | _ => none

def asEnum (p : String → Option α) : Json → Option α
  | .str s => p s
  | _ => none

/-- Encode a Pydantic optional field: `None` dumps as JSON `null`. -/
def optJ (g : α → Json) : Option α → Json
  | none => .null
  | some a => g a

def intJ (n : Int) : Json := .num (n : ℚ)

/-! ### Enumerations (`str, Enum` classes of `types.py`) -/

inductive Source | human | speech_recognition | text_analysis | system | ai
deriving DecidableEq

def Source.tag : Source → String
  | .human => "human"
  | .speech_recognition => "speech_recognition"
  | .text_analysis => "text_analysis"
  | .system => "system"
  | .ai => "ai"

def Source.parse (s : String) : Option Source :=
  if s = "human" then some .human
  else if s = "speech_recognition" then some .speech_recognition
  else if s = "text_analysis" then some .text_analysis
  else if s = "system" then some .system
  else if s = "ai" then some .ai
  else none

inductive ActType | ask | fact | confirm | commit | error
deriving DecidableEq

def ActType.tag : ActType → String
  | .ask => "ask"
  | .fact => "fact"
  | .confirm => "confirm"
  | .commit => "commit"
  | .error => "error"

def ActType.parse (s : String) : Option ActType :=
  if s = "ask" then some .ask
  else if s = "fact" then some .fact
  else if s = "confirm" then some .confirm
  else if s = "commit" then some .commit
  else if s = "error" then some .error
  else none

inductive ConstraintType
  | required | optional | min_length | max_length | pattern | format | range | enum | custom
deriving DecidableEq

def ConstraintType.tag : ConstraintType → String
  | .required => "required"
  | .optional => "optional"
  | .min_length => "min_length"
  | .max_length => "max_length"
  | .pattern => "pattern"
  | .format => "format"
  | .range => "range"
  | .enum => "enum"
  | .custom => "custom"

def ConstraintType.parse (s : String) : Option ConstraintType :=
  if s = "required" then some .required
  else if s = "optional" then some .optional
  else if s = "min_length" then some .min_length
  else if s = "max_length" then some .max_length
  else if s = "pattern" then some .pattern
  else if s = "format" then some .format
  else if s = "range" then some .range
  else if s = "enum" then some .enum
  else if s = "custom" then some .custom
  else none

inductive ParticipantType | human | ai | system | bot
deriving DecidableEq

def ParticipantType.parse (s : String) : Option ParticipantType :=
  if s = "human" then some .human
  else if s = "ai" then some .ai
  else if s = "system" then some .system
  else if s = "bot" then some .bot
  else none

inductive ExpectedType
  | string | number | boolean | object | array | date | email | phone | address
deriving DecidableEq

def ExpectedType.tag : ExpectedType → String
  | .string => "string"
  | .number => "number"
  | .boolean => "boolean"
  | .object => "object"
  | .array => "array"
  | .date => "date"
  | .email => "email"
  | .phone => "phone"
  | .address => "address"

def ExpectedType.parse (s : String) : Option ExpectedType :=
  if s = "string" then some .string
  else if s = "number" then some .number
  else if s = "boolean" then some .boolean
  else if s = "object" then some .object
  else if s = "array" then some .array
  else if s = "date" then some .date
  else if s = "email" then some .email
  else if s = "phone" then some .phone
  else if s = "address" then some .address
  else none

inductive FieldOperation | set | append | increment | decrement | delete | merge
deriving DecidableEq

def FieldOperation.tag : FieldOperation → String
  | .set => "set"
  | .append => "append"
  | .increment => "increment"
  | .decrement => "decrement"
  | .delete => "delete"
  | .merge => "merge"

def FieldOperation.parse (s : String) : Option FieldOperation :=
  if s = "set" then some .set
  else if s = "append" then some .append
  else if s = "increment" then some .increment
  else if s = "decrement" then some .decrement
  else if s = "delete" then some .delete
  else if s = "merge" then some .merge
  else none

inductive ValidationStatus | pending | valid | invalid | partialStatus
deriving DecidableEq

def ValidationStatus.tag : ValidationStatus → String
  | .pending => "pending"
  | .valid => "valid"
  | .invalid => "invalid"
  | .partialStatus => "partial"

def ValidationStatus.parse (s : String) : Option ValidationStatus :=
  if s = "pending" then some .pending
  else if s = "valid" then some .valid
  else if s = "invalid" then some .invalid
  else if s = "partial" then some .partialStatus
  else none

inductive ConfirmationMethod | verbal | explicit | implicit | timeout | system
deriving DecidableEq

def ConfirmationMethod.tag : ConfirmationMethod → String
  | .verbal => "verbal"
  | .explicit => "explicit"
  | .implicit => "implicit"
  | .timeout => "timeout"
  | .system => "system"

def ConfirmationMethod.parse (s : String) : Option ConfirmationMethod :=
  if s = "verbal" then some .verbal
  else if s = "explicit" then some .explicit
  else if s = "implicit" then some .implicit
  else if s = "timeout" then some .timeout
  else if s = "system" then some .system
  else none

inductive CommitAction | create | update | delete | execute | cancel | pause | resume
deriving DecidableEq

def CommitAction.tag : CommitAction → String
  | .create => "create"
  | .update => "update"
  | .delete => "delete"
  | .execute => "execute"
  | .cancel => "cancel"
  | .pause => "pause"
  | .resume => "resume"

def CommitAction.parse (s : String) : Option CommitAction :=
  if s = "create" then some .create
  else if s = "update" then some .update
  else if s = "delete" then some .delete
  else if s = "execute" then some .execute
  else if s = "cancel" then some .cancel
  else if s = "pause" then some .pause
  else if s = "resume" then some .resume
  else none

inductive CommitStatus | pending | in_progress | success | failed | retrying | cancelled
deriving DecidableEq

def CommitStatus.tag : CommitStatus → String
  | .pending => "pending"
  | .in_progress => "in_progress"
  | .success => "success"
  | .failed => "failed"
  | .retrying => "retrying"
  | .cancelled => "cancelled"

def CommitStatus.parse (s : String) : Option CommitStatus :=
  if s = "pending" then some .pending
  else if s = "in_progress" then some .in_progress
  else if s = "success" then some .success
  else if s = "failed" then some .failed
  else if s = "retrying" then some .retrying
  else if s = "cancelled" then some .cancelled
  else none

inductive ErrorSeverity | info | warning | error | critical
deriving DecidableEq

def ErrorSeverity.tag : ErrorSeverity → String
  | .info => "info"
  | .warning => "warning"
  | .error => "error"
  | .critical => "critical"

def ErrorSeverity.parse (s : String) : Option ErrorSeverity :=
  if s = "info" then some .info
  else if s = "warning" then some .warning
  else if s = "error" then some .error
  else if s = "critical" then some .critical
  else none

inductive ErrorCategory
  | validation | processing | integration | timeout | permission | system | user_input
  | business_rule
deriving DecidableEq

def ErrorCategory.tag : ErrorCategory → String
  | .validation => "validation"
  | .processing => "processing"
  | .integration => "integration"
  | .timeout => "timeout"
  | .permission => "permission"
  | .system => "system"
  | .user_input => "user_input"
  | .business_rule => "business_rule"

def ErrorCategory.parse (s : String) : Option ErrorCategory :=
  if s = "validation" then some .validation
  else if s = "processing" then some .processing
  else if s = "integration" then some .integration
  else if s = "timeout" then some .timeout
  else if s = "permission" then some .permission
  else if s = "system" then some .system
  else if s = "user_input" then some .user_input
  else if s = "business_rule" then some .business_rule
  else none

inductive SuggestedAction | retry | escalate | ignore | clarify | fallback | terminate
deriving DecidableEq

def SuggestedAction.tag : SuggestedAction → String
  | .retry => "retry"
  | .escalate => "escalate"
  | .ignore => "ignore"
  | .clarify => "clarify"
  | .fallback => "fallback"
  | .terminate => "terminate"

def SuggestedAction.parse (s : String) : Option SuggestedAction :=
  if s = "retry" then some .retry
  else if s = "escalate" then some .escalate
  else if s = "ignore" then some .ignore
  else if s = "clarify" then some .clarify
  else if s = "fallback" then some .fallback
  else if s = "terminate" then some .terminate
  else none

inductive ConversationStatus | active | paused | completed | failed | cancelled
deriving DecidableEq

def ConversationStatus.parse (s : String) : Option ConversationStatus :=
  if s = "active" then some .active
  else if s = "paused" then some .paused
  else if s = "completed" then some .completed
  else if s = "failed" then some .failed
  else if s = "cancelled" then some .cancelled
  else none

/-! ### In-memory models (`types.py`), their validators and `model_dump` -/

/-- `ActMetadata`, `model_config = ConfigDict(extra="allow")`: the four
declared optional fields plus arbitrary extra keys, preserved verbatim. -/
structure ActMetadata where
  channel : Option String
  language : Option String
  original_text : Option String
  processing_time_ms : Option Int
  extras : List (String × Json)

def ActMetadata.fieldNames : List String :=
  ["channel", "language", "original_text", "processing_time_ms"]

def ActMetadata.validateKVs (kvs : List (String × Json)) : Option ActMetadata := do
  let channel ← getOpt kvs ("channel") asStr
  let language ← getOpt kvs ("language") asStr
  let original_text ← getOpt kvs ("original_text") asStr
  let ptm ← getOpt kvs ("processing_time_ms") asInt
  some ⟨channel, language, original_text, ptm,
        kvs.filter (fun p => !(ActMetadata.fieldNames.contains p.1))⟩

def ActMetadata.validate : Json → Option ActMetadata
  | .obj kvs => ActMetadata.validateKVs kvs
  | _ => none

def ActMetadata.encodeKVs (m : ActMetadata) : List (String × Json) :=
  [(("channel"), optJ Json.str m.channel),
   (("language"), optJ Json.str m.language),
   (("original_text"), optJ Json.str m.original_text),
   (("processing_time_ms"), optJ intJ m.processing_time_ms)] ++ m.extras

def ActMetadata.encode (m : ActMetadata) : Json := .obj m.encodeKVs

/-- `Act`, `model_config = ConfigDict(extra="forbid")` (closed record). -/
structure Act where
  id : String
  timestamp : String
  speaker : String
  type : ActType
  confidence : Option ℚ
  source : Option Source
  metadata : Option ActMetadata

def Act.keys : List String :=
  ["id", "timestamp", "speaker", "type", "confidence", "source", "metadata"]

def Act.validate : Json → Option Act
  | .obj kvs => do
      checkClosed kvs Act.keys
      let id ← getReq kvs ("id") asStr
      let ts ← getReq kvs ("timestamp") asStr
      let sp ← getReq kvs ("speaker") asStr
      let ty ← getReq kvs ("type") (asEnum ActType.parse)
      let cf ← getOpt kvs ("confidence") asRat01
      let src ← getOpt kvs ("source") (asEnum Source.parse)
      let md ← getOpt kvs ("metadata") ActMetadata.validate
      some ⟨id, ts, sp, ty, cf, src, md⟩
  | _ => none

/-- `Entity`, `model_config = ConfigDict(extra="allow")` (open record). -/
structure Entity where
  id : String
  type : String
  external_id : Option String
  system : Option String
  version : Option String
  schema_url : Option String
  metadata : Option (List (String × Json))
  extras : List (String × Json)

def Entity.fieldNames : List String :=
  ["id", "type", "external_id", "system", "version", "schema_url", "metadata"]

def Entity.validateKVs (kvs : List (String × Json)) : Option Entity := do
  let id ← getReq kvs ("id") asStr
  let ty ← getReq kvs ("type") asStr
  let external_id ← getOpt kvs ("external_id") asStr
  let system ← getOpt kvs ("system") asStr
  let version ← getOpt kvs ("version") asStr
  let schema_url ← getOpt kvs ("schema_url") asStr
  let metadata ← getOpt kvs ("metadata") asObjKVs
  some ⟨id, ty, external_id, system, version, schema_url, metadata,
        kvs.filter (fun p => !(Entity.fieldNames.contains p.1))⟩

def Entity.validate : Json → Option Entity
  | .obj kvs => Entity.validateKVs kvs
  | _ => none

def Entity.encodeKVs (e : Entity) : List (String × Json) :=
  [(("id"), .str e.id),
   (("type"), .str e.type),
   (("external_id"), optJ Json.str e.external_id),
   (("system"), optJ Json.str e.system),
   (("version"), optJ Json.str e.version),
   (("schema_url"), optJ Json.str e.schema_url),
   (("metadata"), optJ Json.obj e.metadata)] ++ e.extras

def Entity.encode (e : Entity) : Json := .obj e.encodeKVs

/-- `EntityRef = Union[str, Entity]`: a JSON string is the bare-identifier
variant, an object must satisfy the Entity shape, anything else fails. -/
inductive EntityRef
  | ref : String → EntityRef
  | ent : Entity → EntityRef

def EntityRef.validate : Json → Option EntityRef
  | .str s => some (.ref s)
  | .obj kvs => (Entity.validateKVs kvs).map .ent
  | _ => none

def EntityRef.encode : EntityRef → Json
  | .ref s => .str s
  | .ent e => Entity.encode e

/-- `RangeConstraint`: default `extra` behaviour (`"ignore"`), so unknown
keys are accepted and dropped.  `inclusive: Optional[bool] = Field(True)`:
absent gives `True`, explicit `null` gives `None`. -/
structure RangeConstraint where
  min : Option ℚ
  max : Option ℚ
  inclusive : Option Bool

def RangeConstraint.validateKVs (kvs : List (String × Json)) : Option RangeConstraint := do
  let mn ← getOpt kvs ("min") asRat
  let mx ← getOpt kvs ("max") asRat
  let inc ← getOptDef kvs ("inclusive") asBool true
  some ⟨mn, mx, inc⟩

def RangeConstraint.encode (r : RangeConstraint) : Json :=
  .obj [(("min"), optJ Json.num r.min),
        (("max"), optJ Json.num r.max),
        (("inclusive"), optJ Json.bool r.inclusive)]

/-- `Constraint.value : Optional[Union[int, float, str, FormatType,
RangeConstraint, List[str]]]`.  At the JSON level a `FormatType` member is
its string value (Python `str` enum), so it is folded into `.s`; an integral
number is a Python int (`.i`), a non-integral one a float (`.f`). -/
inductive CValue
  | i : Int → CValue
  | f : ℚ → CValue
  | txt : String → CValue
  | range : RangeConstraint → CValue
  | list : List String → CValue

def CValue.parse : Json → Option CValue
  | .num q => if q.den = 1 then some (.i q.num) else some (.f q)
  | .str s => some (.txt s)
  | .obj kvs => (RangeConstraint.validateKVs kvs).map CValue.range
  | .arr xs => (pList asStr xs).map CValue.list
  | _ => none

def CValue.encode : CValue → Json
  | .i n => intJ n
  | .f q => .num q
  | .txt s => .str s
  | .range r => r.encode
  | .list l => .arr (l.map Json.str)

/-- `Constraint`: no `model_config`, so Pydantic's default `extra="ignore"`
applies — unknown keys are accepted and silently dropped. -/
structure Constraint where
  type : ConstraintType
  value : Option CValue
  message : Option String
  code : Option String

def Constraint.validateKVs (kvs : List (String × Json)) : Option Constraint := do
  let ty ← getReq kvs ("type") (asEnum ConstraintType.parse)
  let v ← getOpt kvs ("value") CValue.parse
  let msg ← getOpt kvs ("message") asStr
  let code ← getOpt kvs ("code") asStr
  some ⟨ty, v, msg, code⟩

def Constraint.validate : Json → Option Constraint
  | .obj kvs => Constraint.validateKVs kvs
  | _ => none

def Constraint.encode (c : Constraint) : Json :=
  .obj [(("type"), .str c.type.tag),
        (("value"), optJ CValue.encode c.value),
        (("message"), optJ Json.str c.message),
        (("code"), optJ Json.str c.code)]

/-- `ParticipantPreferences`, `extra="allow"`. -/
structure ParticipantPreferences where
  language : Option String
  timezone : Option String
  communication_channels : Option (List String)
  extras : List (String × Json)

def ParticipantPreferences.fieldNames : List String :=
  ["language", "timezone", "communication_channels"]

def ParticipantPreferences.validate : Json → Option ParticipantPreferences
  | .obj kvs => do
      let language ← getOpt kvs ("language") asStr
      let timezone ← getOpt kvs ("timezone") asStr
      let cc ← getOpt kvs ("communication_channels") asStrList
      some ⟨language, timezone, cc,
            kvs.filter (fun p => !(ParticipantPreferences.fieldNames.contains p.1))⟩
  | _ => none

/-- `Participant`, `model_config = ConfigDict(extra="allow")` (open record). -/
structure Participant where
  id : String
  type : ParticipantType
  role : Option String
  name : Option String
  email : Option String
  phone : Option String
  external_id : Option String
  system : Option String
  capabilities : Option (List String)
  permissions : Option (List String)
  preferences : Option ParticipantPreferences
  metadata : Option (List (String × Json))
  extras : List (String × Json)

def Participant.fieldNames : List String :=
  ["id", "type", "role", "name", "email", "phone", "external_id", "system",
   "capabilities", "permissions", "preferences", "metadata"]

def Participant.parseContact (kvs : List (String × Json)) :
    Option (Option String × Option String × Option String × Option String ×
            Option String × Option String) := do
  let role ← getOpt kvs ("role") asStr
  let name ← getOpt kvs ("name") asStr
  let email ← getOpt kvs ("email") asStr
  let phone ← getOpt kvs ("phone") asStr
  let external_id ← getOpt kvs ("external_id") asStr
  let system ← getOpt kvs ("system") asStr
  some (role, name, email, phone, external_id, system)

def Participant.validate : Json → Option Participant
  | .obj kvs => do
      let id ← getReq kvs ("id") asStr
      let ty ← getReq kvs ("type") (asEnum ParticipantType.parse)
      let (role, name, email, phone, external_id, system) ← Participant.parseContact kvs
      let capabilities ← getOpt kvs ("capabilities") asStrList
      let permissions ← getOpt kvs ("permissions") asStrList
      let preferences ← getOpt kvs ("preferences") ParticipantPreferences.validate
      let metadata ← getOpt kvs ("metadata") asObjKVs
      some ⟨id, ty, role, name, email, phone, external_id, system, capabilities,
            permissions, preferences, metadata,
            kvs.filter (fun p => !(Participant.fieldNames.contains p.1))⟩
  | _ => none

/-- Shared parse of the inherited `Act` fields for the five concrete
variants: each variant declares `type: ActType = Field(<its tag>)`, a
*defaulted* field, so absence falls back to the variant's tag and any of
the five tags is accepted. -/
def parseBase (kvs : List (String × Json)) (d : ActType) : Option Act := do
  let id ← getReq kvs ("id") asStr
  let ts ← getReq kvs ("timestamp") asStr
  let sp ← getReq kvs ("speaker") asStr
  let ty ← getReqDef kvs ("type") (asEnum ActType.parse) d
  let cf ← getOpt kvs ("confidence") asRat01
  let src ← getOpt kvs ("source") (asEnum Source.parse)
  let md ← getOpt kvs ("metadata") ActMetadata.validate
  some ⟨id, ts, sp, ty, cf, src, md⟩

/-- `Ask(Act)`: note `required`, `retry_count`, `max_retries` are
`Optional[...] = Field(None, ...)` — their default is `None`, and `type` is
`ActType = Field(ActType.ASK)` — a *defaulted* field, not a `Literal`
const, so any of the five tags is accepted and absence defaults to ASK. -/
structure Ask extends Act where
  field : String
  prompt : String
  constraints : Option (List Constraint)
  required : Option Bool
  expected_type : Option ExpectedType
  retry_count : Option Int
  max_retries : Option Int

def Ask.keys : List String :=
  Act.keys ++ ["field", "prompt", "constraints", "required", "expected_type",
               "retry_count", "max_retries"]

def asConstraintList : Json → Option (List Constraint)
  | .arr xs => pList Constraint.validate xs
  | _ => none

def Ask.validate : Json → Option Ask
  | .obj kvs => do
      checkClosed kvs Ask.keys
      let base ← parseBase kvs ActType.ask
      let fld ← getReq kvs ("field") asStr
      let pr ← getReq kvs ("prompt") asStr
      let cs ← getOpt kvs ("constraints") asConstraintList
      let rq ← getOpt kvs ("required") asBool
      let et ← getOpt kvs ("expected_type") (asEnum ExpectedType.parse)
      let rc ← getOpt kvs ("retry_count") asIntGe0
      let mr ← getOpt kvs ("max_retries") asIntGe0
      some ⟨base, fld, pr, cs, rq, et, rc, mr⟩
  | _ => none

def Ask.encodeKVs (a : Ask) : List (String × Json) :=
  [(("id"), .str a.id),
   (("timestamp"), .str a.timestamp),
   (("speaker"), .str a.speaker),
   (("type"), .str a.type.tag),
   (("confidence"), optJ Json.num a.confidence),
   (("source"), optJ (fun s => Json.str s.tag) a.source),
   (("metadata"), optJ ActMetadata.encode a.metadata),
   (("field"), .str a.field),
   (("prompt"), .str a.prompt),
   (("constraints"), optJ (fun l => Json.arr (l.map Constraint.encode)) a.constraints),
   (("required"), optJ Json.bool a.required),
   (("expected_type"), optJ (fun e => Json.str e.tag) a.expected_type),
   (("retry_count"), optJ intJ a.retry_count),
   (("max_retries"), optJ intJ a.max_retries)]

def Ask.encode (a : Ask) : Json := .obj a.encodeKVs

/-- `Fact(Act)`.  `value: Any = Field(...)` is required but may be `null`;
`previous_value: Optional[Any]` cannot distinguish unset from `None`, both
are embedded as `.null`. -/
structure Fact extends Act where
  entity : EntityRef
  field : String
  value : Json
  operation : Option FieldOperation
  previous_value : Json
  validation_status : Option ValidationStatus
  validation_errors : Option (List String)

def Fact.keys : List String :=
  Act.keys ++ ["entity", "field", "value", "operation", "previous_value",
               "validation_status", "validation_errors"]

def Fact.validate : Json → Option Fact
  | .obj kvs => do
      checkClosed kvs Fact.keys
      let base ← parseBase kvs ActType.fact
      let ent ← getReq kvs ("entity") EntityRef.validate
      let fld ← getReq kvs ("field") asStr
      let v ← jget kvs ("value")
      let op ← getOpt kvs ("operation") (asEnum FieldOperation.parse)
      let pv := (jget kvs ("previous_value")).getD .null
      let vs ← getOpt kvs ("validation_status") (asEnum ValidationStatus.parse)
      let ve ← getOpt kvs ("validation_errors") asStrList
      some ⟨base, ent, fld, v, op, pv, vs, ve⟩
  | _ => none

def Fact.encodeKVs (a : Fact) : List (String × Json) :=
  [(("id"), .str a.id),
   (("timestamp"), .str a.timestamp),
   (("speaker"), .str a.speaker),
   (("type"), .str a.type.tag),
   (("confidence"), optJ Json.num a.confidence),
   (("source"), optJ (fun s => Json.str s.tag) a.source),
   (("metadata"), optJ ActMetadata.encode a.metadata),
   (("entity"), a.entity.encode),
   (("field"), .str a.field),
   (("value"), a.value),
   (("operation"), optJ (fun o => Json.str o.tag) a.operation),
   (("previous_value"), a.previous_value),
   (("validation_status"), optJ (fun v => Json.str v.tag) a.validation_status),
   (("validation_errors"), optJ (fun l => Json.arr (l.map Json.str)) a.validation_errors)]

def Fact.encode (a : Fact) : Json := .obj a.encodeKVs

/-- `Confirm(Act)`. -/
structure Confirm extends Act where
  entity : EntityRef
  summary : String
  awaiting : Option Bool
  confirmed : Option Bool
  confirmation_method : Option ConfirmationMethod
  fields_confirmed : Option (List String)
  rejection_reason : Option String
  timeout_ms : Option Int

def Confirm.keys : List String :=
  Act.keys ++ ["entity", "summary", "awaiting", "confirmed", "confirmation_method",
               "fields_confirmed", "rejection_reason", "timeout_ms"]

def Confirm.validate : Json → Option Confirm
  | .obj kvs => do
      checkClosed kvs Confirm.keys
      let base ← parseBase kvs ActType.confirm
      let ent ← getReq kvs ("entity") EntityRef.validate
      let sm ← getReq kvs ("summary") asStr
      let aw ← getOpt kvs ("awaiting") asBool
      let cfd ← getOpt kvs ("confirmed") asBool
      let cm ← getOpt kvs ("confirmation_method") (asEnum ConfirmationMethod.parse)
      let fc ← getOpt kvs ("fields_confirmed") asStrList
      let rr ← getOpt kvs ("rejection_reason") asStr
      let tm ← getOpt kvs ("timeout_ms") asIntGe0
      some ⟨base, ent, sm, aw, cfd, cm, fc, rr, tm⟩
  | _ => none

def Confirm.encodeKVs (a : Confirm) : List (String × Json) :=
  [(("id"), .str a.id),
   (("timestamp"), .str a.timestamp),
   (("speaker"), .str a.speaker),
   (("type"), .str a.type.tag),
   (("confidence"), optJ Json.num a.confidence),
   (("source"), optJ (fun s => Json.str s.tag) a.source),
   (("metadata"), optJ ActMetadata.encode a.metadata),
   (("entity"), a.entity.encode),
   (("summary"), .str a.summary),
   (("awaiting"), optJ Json.bool a.awaiting),
   (("confirmed"), optJ Json.bool a.confirmed),
   (("confirmation_method"), optJ (fun c => Json.str c.tag) a.confirmation_method),
   (("fields_confirmed"), optJ (fun l => Json.arr (l.map Json.str)) a.fields_confirmed),
   (("rejection_reason"), optJ Json.str a.rejection_reason),
   (("timeout_ms"), optJ intJ a.timeout_ms)]

def Confirm.encode (a : Confirm) : Json := .obj a.encodeKVs

/-- `CommitError`: default `extra="ignore"`. -/
structure CommitError where
  code : String
  message : String
  details : Option (List (String × Json))
  recoverable : Bool

def CommitError.validate : Json → Option CommitError
  | .obj kvs => do
      let code ← getReq kvs ("code") asStr
      let msg ← getReq kvs ("message") asStr
      let det ← getOpt kvs ("details") asObjKVs
      let rec ← getReq kvs ("recoverable") asBool
      some ⟨code, msg, det, rec⟩
  | _ => none

def CommitError.encode (e : CommitError) : Json :=
  .obj [(("code"), .str e.code),
        (("message"), .str e.message),
        (("details"), optJ Json.obj e.details),
        (("recoverable"), .bool e.recoverable)]

/-- `Commit(Act)`. -/
structure Commit extends Act where
  entity : EntityRef
  action : CommitAction
  system : Option String
  transaction_id : Option String
  status : Option CommitStatus
  error : Option CommitError
  retry_count : Option Int
  max_retries : Option Int
  idempotency_key : Option String
  rollback_info : Option (List (String × Json))

def Commit.keys : List String :=
  Act.keys ++ ["entity", "action", "system", "transaction_id", "status", "error",
               "retry_count", "max_retries", "idempotency_key", "rollback_info"]

def Commit.parseTarget (kvs : List (String × Json)) :
    Option (EntityRef × CommitAction × Option String × Option String ×
            Option CommitStatus × Option CommitError) := do
  let ent ← getReq kvs ("entity") EntityRef.validate
  let act ← getReq kvs ("action") (asEnum CommitAction.parse)
  let sys ← getOpt kvs ("system") asStr
  let tx ← getOpt kvs ("transaction_id") asStr
  let st ← getOpt kvs ("status") (asEnum CommitStatus.parse)
  let er ← getOpt kvs ("error") CommitError.validate
  some (ent, act, sys, tx, st, er)

def Commit.validate : Json → Option Commit
  | .obj kvs => do
      checkClosed kvs Commit.keys
      let base ← parseBase kvs ActType.commit
      let (ent, act, sys, tx, st, er) ← Commit.parseTarget kvs
      let rc ← getOpt kvs ("retry_count") asIntGe0
      let mr ← getOpt kvs ("max_retries") asIntGe0
      let ik ← getOpt kvs ("idempotency_key") asStr
      let rb ← getOpt kvs ("rollback_info") asObjKVs
      some ⟨base, ent, act, sys, tx, st, er, rc, mr, ik, rb⟩
  | _ => none

def Commit.encodeKVs (a : Commit) : List (String × Json) :=
  [(("id"), .str a.id),
   (("timestamp"), .str a.timestamp),
   (("speaker"), .str a.speaker),
   (("type"), .str a.type.tag),
   (("confidence"), optJ Json.num a.confidence),
   (("source"), optJ (fun s => Json.str s.tag) a.source),
   (("metadata"), optJ ActMetadata.encode a.metadata),
   (("entity"), a.entity.encode),
   (("action"), .str a.action.tag),
   (("system"), optJ Json.str a.system),
   (("transaction_id"), optJ Json.str a.transaction_id),
   (("status"), optJ (fun s => Json.str s.tag) a.status),
   (("error"), optJ CommitError.encode a.error),
   (("retry_count"), optJ intJ a.retry_count),
   (("max_retries"), optJ intJ a.max_retries),
   (("idempotency_key"), optJ Json.str a.idempotency_key),
   (("rollback_info"), optJ Json.obj a.rollback_info)]

def Commit.encode (a : Commit) : Json := .obj a.encodeKVs

/-- `Error(Act)`.  Note the model puts no pattern on `related_act_id`. -/
structure Error extends Act where
  code : String
  message : String
  recoverable : Bool
  severity : Option ErrorSeverity
  category : Option ErrorCategory
  details : Option (List (String × Json))
  related_act_id : Option String
  suggested_action : Option SuggestedAction
  user_message : Option String
  stack_trace : Option String

def Error.keys : List String :=
  Act.keys ++ ["code", "message", "recoverable", "severity", "category", "details",
               "related_act_id", "suggested_action", "user_message", "stack_trace"]

def Error.parseReport (kvs : List (String × Json)) :
    Option (String × String × Bool × Option ErrorSeverity × Option ErrorCategory) := do
  let code ← getReq kvs ("code") asStr
  let msg ← getReq kvs ("message") asStr
  let rcv ← getReq kvs ("recoverable") asBool
  let sev ← getOpt kvs ("severity") (asEnum ErrorSeverity.parse)
  let cat ← getOpt kvs ("category") (asEnum ErrorCategory.parse)
  some (code, msg, rcv, sev, cat)

def Error.validate : Json → Option Error
  | .obj kvs => do
      checkClosed kvs Error.keys
      let base ← parseBase kvs ActType.error
      let (code, msg, rcv, sev, cat) ← Error.parseReport kvs
      let det ← getOpt kvs ("details") asObjKVs
      let rel ← getOpt kvs ("related_act_id") asStr
      let sa ← getOpt kvs ("suggested_action") (asEnum SuggestedAction.parse)
      let um ← getOpt kvs ("user_message") asStr
      let stk ← getOpt kvs ("stack_trace") asStr
      some ⟨base, code, msg, rcv, sev, cat, det, rel, sa, um, stk⟩
  | _ => none

def Error.encodeKVs (a : Error) : List (String × Json) :=
  [(("id"), .str a.id),
   (("timestamp"), .str a.timestamp),
   (("speaker"), .str a.speaker),
   (("type"), .str a.type.tag),
   (("confidence"), optJ Json.num a.confidence),
   (("source"), optJ (fun s => Json.str s.tag) a.source),
   (("metadata"), optJ ActMetadata.encode a.metadata),
   (("code"), .str a.code),
   (("message"), .str a.message),
   (("recoverable"), .bool a.recoverable),
   (("severity"), optJ (fun s => Json.str s.tag) a.severity),
   (("category"), optJ (fun c => Json.str c.tag) a.category),
   (("details"), optJ Json.obj a.details),
   (("related_act_id"), optJ Json.str a.related_act_id),
   (("suggested_action"), optJ (fun s => Json.str s.tag) a.suggested_action),
   (("user_message"), optJ Json.str a.user_message),
   (("stack_trace"), optJ Json.str a.stack_trace)]

def Error.encode (a : Error) : Json := .obj a.encodeKVs

/-! ### Conversation aggregate (`types.py`) -/

/-- `ConversationContext`, `extra="allow"`. -/
structure ConversationContext where
  session_id : Option String
  user_agent : Option String
  ip_address : Option String
  referrer : Option String
  extras : List (String × Json)

def ConversationContext.fieldNames : List String :=
  ["session_id", "user_agent", "ip_address", "referrer"]

def ConversationContext.validate : Json → Option ConversationContext
  | .obj kvs => do
      let sid ← getOpt kvs ("session_id") asStr
      let ua ← getOpt kvs ("user_agent") asStr
      let ip ← getOpt kvs ("ip_address") asStr
      let ref ← getOpt kvs ("referrer") asStr
      some ⟨sid, ua, ip, ref,
            kvs.filter (fun p => !(ConversationContext.fieldNames.contains p.1))⟩
  | _ => none

def ConversationContext.encodeKVs (c : ConversationContext) : List (String × Json) :=
  [(("session_id"), optJ Json.str c.session_id),
   (("user_agent"), optJ Json.str c.user_agent),
   (("ip_address"), optJ Json.str c.ip_address),
   (("referrer"), optJ Json.str c.referrer)] ++ c.extras

/-- `ConversationMetadata`, `extra="allow"`, counters `ge=0`,
`avg_confidence` in `[0, 1]`. -/
structure ConversationMetadata where
  total_duration_ms : Option Int
  act_count : Option Int
  error_count : Option Int
  commit_count : Option Int
  avg_confidence : Option ℚ
  extras : List (String × Json)

def ConversationMetadata.fieldNames : List String :=
  ["total_duration_ms", "act_count", "error_count", "commit_count", "avg_confidence"]

def ConversationMetadata.validate : Json → Option ConversationMetadata
  | .obj kvs => do
      let td ← getOpt kvs ("total_duration_ms") asIntGe0
      let ac ← getOpt kvs ("act_count") asIntGe0
      let ec ← getOpt kvs ("error_count") asIntGe0
      let cc ← getOpt kvs ("commit_count") asIntGe0
      let avg ← getOpt kvs ("avg_confidence") asRat01
      some ⟨td, ac, ec, cc, avg,
            kvs.filter (fun p => !(ConversationMetadata.fieldNames.contains p.1))⟩
  | _ => none

/-- `ConversationAct = Union[Ask, Fact, Confirm, Commit, Error]`: Pydantic
tries the members left to right in declaration order and takes the first
that validates. -/
inductive CAct
  | ask : Ask → CAct
  | fact : Fact → CAct
  | confirm : Confirm → CAct
  | commit : Commit → CAct
  | error : Error → CAct

def CAct.validate (j : Json) : Option CAct :=
  match Ask.validate j with
  | some a => some (.ask a)
  | none =>
    match Fact.validate j with
    | some a => some (.fact a)
    | none =>
      match Confirm.validate j with
      | some a => some (.confirm a)
      | none =>
        match Commit.validate j with
        | some a => some (.commit a)
        | none =>
          match Error.validate j with
          | some a => some (.error a)
          | none => none

def asActList : Json → Option (List CAct)
  | .arr xs => pList CAct.validate xs
  | _ => none

def asParticipantList : Json → Option (List Participant)
  | .arr xs => pList Participant.validate xs
  | _ => none

/-- `Conversation`, `model_config = ConfigDict(extra="forbid")`.  Note what
the model does *not* declare: no pattern on `id`, no minimum length on
`participants`; the field is named `business_schema` (the schema document
instead declares a property `schema`). -/
structure Conversation where
  id : String
  participants : List Participant
  acts : List CAct
  started_at : Option String
  ended_at : Option String
  status : Option ConversationStatus
  channel : Option String
  business_schema : Option String
  context : Option ConversationContext
  final_state : Option (List (String × Json))
  metadata : Option ConversationMetadata

def Conversation.keys : List String :=
  ["id", "participants", "acts", "started_at", "ended_at", "status", "channel",
   "business_schema", "context", "final_state", "metadata"]

def Conversation.parseSchedule (kvs : List (String × Json)) :
    Option (Option String × Option String × Option ConversationStatus ×
            Option String × Option String) := do
  let sa ← getOpt kvs ("started_at") asStr
  let ea ← getOpt kvs ("ended_at") asStr
  let st ← getOpt kvs ("status") (asEnum ConversationStatus.parse)
  let ch ← getOpt kvs ("channel") asStr
  let bs ← getOpt kvs ("business_schema") asStr
  some (sa, ea, st, ch, bs)

def Conversation.validate : Json → Option Conversation
  | .obj kvs => do
      checkClosed kvs Conversation.keys
      let id ← getReq kvs ("id") asStr
      let parts ← getReq kvs ("participants") asParticipantList
      let acts ← getReq kvs ("acts") asActList
      let (sa, ea, st, ch, bs) ← Conversation.parseSchedule kvs
      let ctx ← getOpt kvs ("context") ConversationContext.validate
      let fs ← getOpt kvs ("final_state") asObjKVs
      let md ← getOpt kvs ("metadata") ConversationMetadata.validate
      some ⟨id, parts, acts, sa, ea, st, ch, bs, ctx, fs, md⟩
  | _ => none

/-! ### The embedded JSON Schema registry (`schemas.py`, `SCHEMAS`)

Each acceptor transcribes one schema document (draft 2020-12 semantics for
the keywords used: `type`, `required`, `properties`,
`additionalProperties`, `pattern`, `enum`, `const`, `minimum`/`maximum`,
`minItems`, `items`, `oneOf`).  `format` is annotation-only in draft
2020-12 and is therefore not asserted.  A property subschema applies only
when the key is present; `additionalProperties: False` rejects any key
outside `properties`. -/

def isStrJ : Json → Bool
  | .str _ => true
  | _ => false

def isBoolJ : Json → Bool
  | .bool _ => true
  | _ => false

def isObjJ : Json → Bool
  | .obj _ => true
  | _ => false

def isNum01J : Json → Bool
  | .num q => decide (0 ≤ q ∧ q ≤ 1)
  | _ => false

def isNumGe0J : Json → Bool
  | .num q => decide (0 ≤ q)
  | _ => false

def isIntGe0J : Json → Bool
  | .num q => q.den == 1 && decide (0 ≤ q.num)
  | _ => false

def strIn (vs : List String) : Json → Bool
  | .str s => vs.contains s
  | _ => false

def constStr (c : String) : Json → Bool
  | .str s => s == c
  | _ => false

def arrOfStrJ : Json → Bool
  | .arr xs => xs.all isStrJ
  | _ => false

def requiredOk (kvs : List (String × Json)) (rs : List String) : Bool :=
  rs.all (fun r => (jget kvs r).isSome)

/-- `[A-Za-z0-9_-]`, the character class of the id patterns. -/
def idCharOk (c : Char) : Bool := c.isAlphanum || c == '_' || c == '-'

/-- Anchored regex `^act_[a-zA-Z0-9_-]+$`. -/
def matchesActId (s : String) : Bool :=
  match s.toList with
  | 'a' :: 'c' :: 't' :: '_' :: rest => decide (0 < rest.length) && rest.all idCharOk
  | _ => false

/-- Anchored regex `^conv_[a-zA-Z0-9_-]+$`. -/
def matchesConvId (s : String) : Bool :=
  match s.toList with
  | 'c' :: 'o' :: 'n' :: 'v' :: '_' :: rest => decide (0 < rest.length) && rest.all idCharOk
  | _ => false

/-- Anchored regex `^[a-z]{2}(-[A-Z]{2})?$` (language codes). -/
def matchesLang (s : String) : Bool :=
  match s.toList with
  | [a, b] => a.isLower && b.isLower
  | [a, b, d, e, f] => a.isLower && b.isLower && d == '-' && e.isUpper && f.isUpper
  | _ => false

def sourceTags : List String :=
  ["human", "speech_recognition", "text_analysis", "system", "ai"]

def constraintTypeTags : List String :=
  ["required", "optional", "min_length", "max_length", "pattern", "format", "range",
   "enum", "custom"]

def expectedTypeTags : List String :=
  ["string", "number", "boolean", "object", "array", "date", "email", "phone", "address"]

def operationTags : List String :=
  ["set", "append", "increment", "decrement", "delete", "merge"]

def validationStatusTags : List String := ["pending", "valid", "invalid", "partial"]

def confirmationMethodTags : List String :=
  ["verbal", "explicit", "implicit", "timeout", "system"]

def commitActionTags : List String :=
  ["create", "update", "delete", "execute", "cancel", "pause", "resume"]

def commitStatusTags : List String :=
  ["pending", "in_progress", "success", "failed", "retrying", "cancelled"]

def severityTags : List String := ["info", "warning", "error", "critical"]

def categoryTags : List String :=
  ["validation", "processing", "integration", "timeout", "permission", "system",
   "user_input", "business_rule"]

def suggestedActionTags : List String :=
  ["retry", "escalate", "ignore", "clarify", "fallback", "terminate"]

def participantTypeTags : List String := ["human", "ai", "system", "bot"]

def conversationStatusTags : List String :=
  ["active", "paused", "completed", "failed", "cancelled"]

/-- The `metadata` property of the variant schemas (`ask`/`fact`/`confirm`/
`commit`/`error`): `{"type": "object", "additionalProperties": True}`. -/
def openObjOk : Json → Bool := isObjJ

/-- The inline structured-entity branch of the `entity` property in the
`fact`/`confirm`/`commit` schemas (`additionalProperties: False`), which is
also the body of the top-level `entity` schema document. -/
def entityObjOk : Json → Bool
  | .obj kvs =>
      requiredOk kvs [("id"), ("type")] &&
      kvs.all (fun p =>
        if p.1 = "id" then isStrJ p.2
        else if p.1 = "type" then isStrJ p.2
        else if p.1 = "external_id" then isStrJ p.2
        else if p.1 = "system" then isStrJ p.2
        else if p.1 = "version" then isStrJ p.2
        else if p.1 = "schema_url" then isStrJ p.2
        else if p.1 = "metadata" then isObjJ p.2
        else false)
  | _ => false

/-- `SCHEMAS["entity"]`: same constraints as the inline entity branch. -/
def entitySchemaAccepts : Json → Bool := entityObjOk

/-- The `entity` property: `oneOf` a string or the structured entity —
exactly one branch must accept. -/
def entityRefOk (v : Json) : Bool :=
  ((if isStrJ v then 1 else 0) + (if entityObjOk v then 1 else 0)) == 1

/-- The constraint item schema inside `SCHEMAS["ask"].properties.constraints`
(no `additionalProperties` keyword: unknown keys allowed). -/
def constraintItemOk : Json → Bool
  | .obj kvs =>
      requiredOk kvs [("type")] &&
      kvs.all (fun p =>
        if p.1 = "type" then strIn constraintTypeTags p.2
        else if p.1 = "value" then true
        else if p.1 = "message" then isStrJ p.2
        else if p.1 = "code" then isStrJ p.2
        else true)
  | _ => false

/-- `SCHEMAS["ask"]`. -/
def askSchemaAccepts : Json → Bool
  | .obj kvs =>
      requiredOk kvs [("id"), ("timestamp"), ("speaker"), ("type"), ("field"), ("prompt")] &&
      kvs.all (fun p =>
        if p.1 = "id" then (match p.2 with | .str s => matchesActId s | _ => false)
        else if p.1 = "timestamp" then isStrJ p.2
        else if p.1 = "speaker" then isStrJ p.2
        else if p.1 = "type" then constStr ("ask") p.2
        else if p.1 = "confidence" then isNum01J p.2
        else if p.1 = "source" then strIn sourceTags p.2
        else if p.1 = "metadata" then openObjOk p.2
        else if p.1 = "field" then isStrJ p.2
        else if p.1 = "prompt" then isStrJ p.2
        else if p.1 = "constraints" then
          (match p.2 with | .arr xs => xs.all constraintItemOk | _ => false)
        else if p.1 = "required" then isBoolJ p.2
        else if p.1 = "expected_type" then strIn expectedTypeTags p.2
        else if p.1 = "retry_count" then isIntGe0J p.2
        else if p.1 = "max_retries" then isIntGe0J p.2
        else false)
  | _ => false

/-- `SCHEMAS["fact"]`. -/
def factSchemaAccepts : Json → Bool
  | .obj kvs =>
      requiredOk kvs [("id"), ("timestamp"), ("speaker"), ("type"), ("entity"), ("field"), ("value")] &&
      kvs.all (fun p =>
        if p.1 = "id" then (match p.2 with | .str s => matchesActId s | _ => false)
        else if p.1 = "timestamp" then isStrJ p.2
        else if p.1 = "speaker" then isStrJ p.2
        else if p.1 = "type" then constStr ("fact") p.2
        else if p.1 = "confidence" then isNum01J p.2
        else if p.1 = "source" then strIn sourceTags p.2
        else if p.1 = "metadata" then openObjOk p.2
        else if p.1 = "entity" then entityRefOk p.2
        else if p.1 = "field" then isStrJ p.2
        else if p.1 = "value" then true
        else if p.1 = "operation" then strIn operationTags p.2
        else if p.1 = "previous_value" then true
        else if p.1 = "validation_status" then strIn validationStatusTags p.2
        else if p.1 = "validation_errors" then arrOfStrJ p.2
        else false)
  | _ => false

/-- `SCHEMAS["confirm"]`. -/
def confirmSchemaAccepts : Json → Bool
  | .obj kvs =>
      requiredOk kvs [("id"), ("timestamp"), ("speaker"), ("type"), ("entity"), ("summary")] &&
      kvs.all (fun p =>
        if p.1 = "id" then (match p.2 with | .str s => matchesActId s | _ => false)
        else if p.1 = "timestamp" then isStrJ p.2
        else if p.1 = "speaker" then isStrJ p.2
        else if p.1 = "type" then constStr ("confirm") p.2
        else if p.1 = "confidence" then isNum01J p.2
        else if p.1 = "source" then strIn sourceTags p.2
        else if p.1 = "metadata" then openObjOk p.2
        else if p.1 = "entity" then entityRefOk p.2
        else if p.1 = "summary" then isStrJ p.2
        else if p.1 = "awaiting" then isBoolJ p.2
        else if p.1 = "confirmed" then isBoolJ p.2
        else if p.1 = "confirmation_method" then strIn confirmationMethodTags p.2
        else if p.1 = "fields_confirmed" then arrOfStrJ p.2
        else if p.1 = "rejection_reason" then isStrJ p.2
        else if p.1 = "timeout_ms" then isIntGe0J p.2
        else false)
  | _ => false

/-- The `error` property subschema of `SCHEMAS["commit"]` (required
`code`/`message`, no `additionalProperties` keyword). -/
def commitErrorOk : Json → Bool
  | .obj kvs =>
      requiredOk kvs [("code"), ("message")] &&
      kvs.all (fun p =>
        if p.1 = "code" then isStrJ p.2
        else if p.1 = "message" then isStrJ p.2
        else if p.1 = "details" then isObjJ p.2
        else if p.1 = "recoverable" then isBoolJ p.2
        else true)
  | _ => false

/-- `SCHEMAS["commit"]`. -/
def commitSchemaAccepts : Json → Bool
  | .obj kvs =>
      requiredOk kvs [("id"), ("timestamp"), ("speaker"), ("type"), ("entity"), ("action")] &&
      kvs.all (fun p =>
        if p.1 = "id" then (match p.2 with | .str s => matchesActId s | _ => false)
        else if p.1 = "timestamp" then isStrJ p.2
        else if p.1 = "speaker" then isStrJ p.2
        else if p.1 = "type" then constStr ("commit") p.2
        else if p.1 = "confidence" then isNum01J p.2
        else if p.1 = "source" then strIn sourceTags p.2
        else if p.1 = "metadata" then openObjOk p.2
        else if p.1 = "entity" then entityRefOk p.2
        else if p.1 = "action" then strIn commitActionTags p.2
        else if p.1 = "system" then isStrJ p.2
        else if p.1 = "transaction_id" then isStrJ p.2
        else if p.1 = "status" then strIn commitStatusTags p.2
        else if p.1 = "error" then commitErrorOk p.2
        else if p.1 = "retry_count" then isIntGe0J p.2
        else if p.1 = "max_retries" then isIntGe0J p.2
        else if p.1 = "idempotency_key" then isStrJ p.2
        else if p.1 = "rollback_info" then isObjJ p.2
        else false)
  | _ => false

/-- `SCHEMAS["error"]`. -/
def errorSchemaAccepts : Json → Bool
  | .obj kvs =>
      requiredOk kvs [("id"), ("timestamp"), ("speaker"), ("type"), ("code"), ("message"), ("recoverable")] &&
      kvs.all (fun p =>
        if p.1 = "id" then (match p.2 with | .str s => matchesActId s | _ => false)
        else if p.1 = "timestamp" then isStrJ p.2
        else if p.1 = "speaker" then isStrJ p.2
        else if p.1 = "type" then constStr ("error") p.2
        else if p.1 = "confidence" then isNum01J p.2
        else if p.1 = "source" then strIn sourceTags p.2
        else if p.1 = "metadata" then openObjOk p.2
        else if p.1 = "code" then isStrJ p.2
        else if p.1 = "message" then isStrJ p.2
        else if p.1 = "recoverable" then isBoolJ p.2
        else if p.1 = "severity" then strIn severityTags p.2
        else if p.1 = "category" then strIn categoryTags p.2
        else if p.1 = "details" then isObjJ p.2
        else if p.1 = "related_act_id" then (match p.2 with | .str s => matchesActId s | _ => false)
        else if p.1 = "suggested_action" then strIn suggestedActionTags p.2
        else if p.1 = "user_message" then isStrJ p.2
        else if p.1 = "stack_trace" then isStrJ p.2
        else false)
  | _ => false

/-- The `preferences` subschema of `SCHEMAS["participant"]`
(`additionalProperties: True`). -/
def preferencesSchemaOk : Json → Bool
  | .obj kvs =>
      kvs.all (fun p =>
        if p.1 = "language" then (match p.2 with | .str s => matchesLang s | _ => false)
        else if p.1 = "timezone" then isStrJ p.2
        else if p.1 = "communication_channels" then arrOfStrJ p.2
        else true)
  | _ => false

/-- `SCHEMAS["participant"]` (`additionalProperties: False`). -/
def participantSchemaAccepts : Json → Bool
  | .obj kvs =>
      requiredOk kvs [("id"), ("type")] &&
      kvs.all (fun p =>
        if p.1 = "id" then isStrJ p.2
        else if p.1 = "type" then strIn participantTypeTags p.2
        else if p.1 = "role" then isStrJ p.2
        else if p.1 = "name" then isStrJ p.2
        else if p.1 = "email" then isStrJ p.2
        else if p.1 = "phone" then isStrJ p.2
        else if p.1 = "external_id" then isStrJ p.2
        else if p.1 = "system" then isStrJ p.2
        else if p.1 = "capabilities" then arrOfStrJ p.2
        else if p.1 = "permissions" then arrOfStrJ p.2
        else if p.1 = "preferences" then preferencesSchemaOk p.2
        else if p.1 = "metadata" then isObjJ p.2
        else false)
  | _ => false

/-- The inline participant item schema of
`SCHEMAS["conversation"].properties.participants.items`: unlike the
top-level participant document it has no `additionalProperties` keyword
(unknown keys allowed) and `preferences` is a bare open object. -/
def convParticipantItemOk : Json → Bool
  | .obj kvs =>
      requiredOk kvs [("id"), ("type")] &&
      kvs.all (fun p =>
        if p.1 = "id" then isStrJ p.2
        else if p.1 = "type" then strIn participantTypeTags p.2
        else if p.1 = "role" then isStrJ p.2
        else if p.1 = "name" then isStrJ p.2
        else if p.1 = "email" then isStrJ p.2
        else if p.1 = "phone" then isStrJ p.2
        else if p.1 = "external_id" then isStrJ p.2
        else if p.1 = "system" then isStrJ p.2
        else if p.1 = "capabilities" then arrOfStrJ p.2
        else if p.1 = "permissions" then arrOfStrJ p.2
        else if p.1 = "preferences" then isObjJ p.2
        else if p.1 = "metadata" then isObjJ p.2
        else true)
  | _ => false

/-- The `acts` item schema: `oneOf` the five variant schemas (the
document's `$ref: "#/ask"` etc. are read as references to the registry's
variant schema documents); `oneOf` demands exactly one accepting branch. -/
def actsItemOk (v : Json) : Bool :=
  ((if askSchemaAccepts v then 1 else 0) +
   (if factSchemaAccepts v then 1 else 0) +
   (if confirmSchemaAccepts v then 1 else 0) +
   (if commitSchemaAccepts v then 1 else 0) +
   (if errorSchemaAccepts v then 1 else 0)) == 1

/-- The `context` subschema of `SCHEMAS["conversation"]`
(`additionalProperties: True`). -/
def contextSchemaOk : Json → Bool
  | .obj kvs =>
      kvs.all (fun p =>
        if p.1 = "session_id" then isStrJ p.2
        else if p.1 = "user_agent" then isStrJ p.2
        else if p.1 = "ip_address" then isStrJ p.2
        else if p.1 = "referrer" then isStrJ p.2
        else true)
  | _ => false

/-- The `metadata` subschema of `SCHEMAS["conversation"]`
(`additionalProperties: True`). -/
def convMetadataSchemaOk : Json → Bool
  | .obj kvs =>
      kvs.all (fun p =>
        if p.1 = "total_duration_ms" then isIntGe0J p.2
        else if p.1 = "act_count" then isIntGe0J p.2
        else if p.1 = "error_count" then isIntGe0J p.2
        else if p.1 = "commit_count" then isIntGe0J p.2
        else if p.1 = "avg_confidence" then isNum01J p.2
        else true)
  | _ => false

/-- `SCHEMAS["conversation"]` (`additionalProperties: False`): note it
declares a property `schema` — not `business_schema` — and demands
`minItems: 1` on `participants` and the `^conv_[a-zA-Z0-9_-]+$` pattern
on `id`. -/
def conversationSchemaAccepts : Json → Bool
  | .obj kvs =>
      requiredOk kvs [("id"), ("participants"), ("acts")] &&
      kvs.all (fun p =>
        if p.1 = "id" then (match p.2 with | .str s => matchesConvId s | _ => false)
        else if p.1 = "participants" then
          (match p.2 with
           | .arr xs => decide (1 ≤ xs.length) && xs.all convParticipantItemOk
           | _ => false)
        else if p.1 = "acts" then
          (match p.2 with | .arr xs => xs.all actsItemOk | _ => false)
        else if p.1 = "started_at" then isStrJ p.2
        else if p.1 = "ended_at" then isStrJ p.2
        else if p.1 = "status" then strIn conversationStatusTags p.2
        else if p.1 = "channel" then isStrJ p.2
        else if p.1 = "schema" then isStrJ p.2
        else if p.1 = "context" then contextSchemaOk p.2
        else if p.1 = "final_state" then isObjJ p.2
        else if p.1 = "metadata" then convMetadataSchemaOk p.2
        else false)
  | _ => false

/-! ### Constraint validation engine -/

def jsonLen : Json → Option Nat
  | .str s => some s.length
  | .arr xs => some xs.length
  | _ => none

def cvalNum : CValue → Option ℚ
  | .i n => some (n : ℚ)
  | .f q => some q
  | _ => none

/-- `required` kind: present and non-empty — empty string, empty list and
`null` fail. -/
def nonEmptyJ : Json → Bool
  | .null => false
  | .str s => !s.isEmpty
  | .arr xs => !xs.isEmpty
  | _ => true

def rangeOk (r : RangeConstraint) (q : ℚ) : Bool :=
  let inc := r.inclusive.getD true
  (match r.min with
   | none => true
   | some m => if inc then decide (m ≤ q) else decide (m < q)) &&
  (match r.max with
   | none => true
   | some m => if inc then decide (q ≤ m) else decide (q < m))

/-- Modelled from the spec: the repository ships only the `Constraint` data
model; the constraint-validation operation of spec §4.3 has no code under
`src/`.  Per-kind semantics follow §4.3: `required` demands a present,
non-empty candidate; `min_length`/`max_length` compare the string-or-list
length against the numeric `value`; `pattern`/`format` delegate to the
regular-expression and format predicates `rm`/`fm` (external pure
predicates, passed as parameters); `range` checks the numeric candidate
against the `RangeConstraint`, inclusively or exclusively per `inclusive`,
absent bounds unbounded; `enum` demands membership in the string list;
`custom` is carried but never executed; a constraint whose `value` shape
does not fit its kind is not cross-validated and reports no violation. -/
def violatesC (rm fm : String → String → Bool) (cand : Json) (c : Constraint) : Bool :=
  match c.type with
  | .required => !nonEmptyJ cand
  | .optional => false
  | .min_length =>
      (match jsonLen cand, c.value.bind cvalNum with
       | some l, some n => decide ((l : ℚ) < n)
       | _, _ => false)
  | .max_length =>
      (match jsonLen cand, c.value.bind cvalNum with
       | some l, some n => decide (n < (l : ℚ))
       | _, _ => false)
  | .pattern =>
      (match cand, c.value with
       | .str s, some (.txt pat) => !(rm pat s)
       | _, _ => false)
  | .format =>
      (match cand, c.value with
       | .str s, some (.txt f) => !(fm f s)
       | _, _ => false)
  | .range =>
      (match cand, c.value with
       | .num q, some (.range r) => !(rangeOk r q)
       | _, _ => false)
  | .enum =>
      (match cand, c.value with
       | .str s, some (.list vs) => !(vs.contains s)
       | _, _ => false)
  | .custom => false

/-- Modelled from the spec (§4.3): evaluate each constraint of the list in
order, independently — not fail-fast — and return the list of all violated
constraints (success is the empty list). -/
def validateConstraints (rm fm : String → String → Bool) (cs : List Constraint)
    (cand : Json) : List Constraint :=
  match cs with
  | [] => []
  | c :: rest =>
      if violatesC rm fm cand c then c :: validateConstraints rm fm rest cand
      else validateConstraints rm fm rest cand

/-! ### Utility functions (`types.py`) -/

/-- `generate_act_id`: `"act_"` plus the first 12 characters of the UUID's
hex form (the random UUID string is a parameter of the embedding). -/
def generate_act_id (uuidStr : String) : String :=
  ("act_") ++ ((uuidStr.replace ("-") ("")).take 12)

/-- `generate_conversation_id`. -/
def generate_conversation_id (uuidStr : String) : String :=
  ("conv_") ++ ((uuidStr.replace ("-") ("")).take 12)

/-- Python `dict` assignment `d[k] = v`: replaces in place if the key
exists (keeping its position), otherwise appends. -/
def pyDictSet (d : List (String × Json)) (k : String) (v : Json) : List (String × Json) :=
  if (keysOf d).contains k then d.map (fun p => (p.1, if p.1 = k then v else p.2))
  else d ++ [(k, v)]

/-- Python `dict.update`: assign each entry of `upd` in order. -/
def pyDictUpdate (d upd : List (String × Json)) : List (String × Json) :=
  upd.foldl (fun acc kv => pyDictSet acc kv.1 kv.2) d

/-- The base dict built by `create_base_act`: generated id, `now`'s
isoformat with `"Z"` appended, the speaker, and the act type (at the JSON
level the `str`-enum member is its tag). -/
def baseActFields (uuidStr nowIso speaker : String) (act_type : ActType) :
    List (String × Json) :=
  [(("id"), Json.str (generate_act_id uuidStr)),
   (("timestamp"), Json.str (nowIso ++ ("Z"))),
   (("speaker"), Json.str speaker),
   (("type"), Json.str act_type.tag)]

/-- `create_base_act(speaker, act_type, additional_fields)`: the base dict,
then `base_act.update(additional_fields)` when additional fields are
supplied (`uuidStr` and `nowIso` stand for the `uuid4()` and
`datetime.now().isoformat()` calls). -/
def create_base_act (uuidStr nowIso speaker : String) (act_type : ActType)
    (additional_fields : Option (List (String × Json))) : List (String × Json) :=
  match additional_fields with
  | none => baseActFields uuidStr nowIso speaker act_type
  | some add => pyDictUpdate (baseActFields uuidStr nowIso speaker act_type) add

/-! ### Validity invariants established by construction/validation

Pydantic guarantees these for every value that exists at runtime: bound
constraints on constrained fields, extra keys disjoint from declared field
names in `extra="allow"` models, and — a JSON-level representation
condition — float-typed constraint values that are not integral (an
integral JSON number is a Python int). -/

def disjointFrom (kvs : List (String × Json)) (names : List String) : Prop :=
  ∀ p ∈ kvs, names.contains p.1 = false

instance (kvs : List (String × Json)) (names : List String) :
    Decidable (disjointFrom kvs names) := by
  unfold disjointFrom; infer_instance

def optPred (P : α → Prop) : Option α → Prop
  | none => True
  | some a => P a

instance (P : α → Prop) [DecidablePred P] (x : Option α) : Decidable (optPred P x) :=
  match x with
  | none => isTrue trivial
  | some a => (inferInstance : Decidable (P a))

def ActMetadata.Valid (m : ActMetadata) : Prop :=
  disjointFrom m.extras ActMetadata.fieldNames

instance (m : ActMetadata) : Decidable m.Valid := by
  unfold ActMetadata.Valid; infer_instance

def Entity.Valid (e : Entity) : Prop :=
  disjointFrom e.extras Entity.fieldNames

instance (e : Entity) : Decidable e.Valid := by
  unfold Entity.Valid; infer_instance

def EntityRef.Valid : EntityRef → Prop
  | .ref _ => True
  | .ent e => e.Valid

instance : ∀ r : EntityRef, Decidable r.Valid
  | .ref _ => isTrue trivial
  | .ent e => (inferInstance : Decidable e.Valid)

def CValue.Valid : CValue → Prop
  | .f q => q.den ≠ 1
  | _ => True

instance : ∀ v : CValue, Decidable v.Valid
  | .i _ => isTrue trivial
  | .f q => (inferInstance : Decidable (q.den ≠ 1))
  | .txt _ => isTrue trivial
  | .range _ => isTrue trivial
  | .list _ => isTrue trivial

def Constraint.Valid (c : Constraint) : Prop := optPred CValue.Valid c.value

instance (c : Constraint) : Decidable c.Valid := by
  unfold Constraint.Valid; infer_instance

def Act.Valid (a : Act) : Prop :=
  optPred (fun q => 0 ≤ q ∧ q ≤ 1) a.confidence ∧ optPred ActMetadata.Valid a.metadata

instance (a : Act) : Decidable a.Valid := by
  unfold Act.Valid ActMetadata.Valid; infer_instance

def Ask.Valid (a : Ask) : Prop :=
  a.toAct.Valid ∧ optPred (fun l => ∀ c ∈ l, c.Valid) a.constraints ∧
  optPred (fun n : ℤ => 0 ≤ n) a.retry_count ∧ optPred (fun n : ℤ => 0 ≤ n) a.max_retries

instance (a : Ask) : Decidable a.Valid := by
  unfold Ask.Valid; infer_instance

def Fact.Valid (a : Fact) : Prop := a.toAct.Valid ∧ a.entity.Valid

instance (a : Fact) : Decidable a.Valid := by
  unfold Fact.Valid; infer_instance

def Confirm.Valid (a : Confirm) : Prop :=
  a.toAct.Valid ∧ a.entity.Valid ∧ optPred (fun n : ℤ => 0 ≤ n) a.timeout_ms

instance (a : Confirm) : Decidable a.Valid := by
  unfold Confirm.Valid; infer_instance

def Commit.Valid (a : Commit) : Prop :=
  a.toAct.Valid ∧ a.entity.Valid ∧
  optPred (fun n : ℤ => 0 ≤ n) a.retry_count ∧ optPred (fun n : ℤ => 0 ≤ n) a.max_retries

instance (a : Commit) : Decidable a.Valid := by
  unfold Commit.Valid; infer_instance

def Error.Valid (a : Error) : Prop := a.toAct.Valid

instance (a : Error) : Decidable a.Valid := by
  unfold Error.Valid; infer_instance

/-! ### Concrete test vectors -/

def cMeta : ActMetadata :=
  ⟨some ("voice"), none, none, some 12, [(("trace"), Json.bool true)]⟩

def cBase : Act :=
  ⟨("act_1"), ("2025-01-15T14:30:00Z"), ("agent"), .ask, some 1, some .human,
   some cMeta⟩

def cEntity : Entity :=
  ⟨("customer_123"), ("customer"), some ("X42"), none, none, none,
   some [(("vip"), Json.bool true)], []⟩

def cAsk : Ask :=
  ⟨cBase, ("email"), ("What is your email?"),
   some [⟨.required, none, none, none⟩, ⟨.min_length, some (.i 5), some ("too short"), none⟩],
   some true, some .email, some 0, some 3⟩

def cFact : Fact :=
  ⟨{ cBase with type := .fact }, .ent cEntity, ("email"), Json.null, some .set,
   Json.null, some .pending, some [("bad")]⟩

def cConfirm : Confirm :=
  ⟨{ cBase with type := .confirm }, .ref ("customer_123"), ("Your order"), some true,
   none, some .verbal, some [("email")], none, some 30000⟩

def cCommit : Commit :=
  ⟨{ cBase with type := .commit }, .ent cEntity, .create, some ("crm"), some ("tx9"),
   some .pending, some ⟨("E1"), ("boom"), some [(("why"), Json.str ("x"))], true⟩,
   some 0, some 3, some ("idem1"), some [(("undo"), Json.bool false)]⟩

def cError : Error :=
  ⟨{ cBase with type := .error }, ("E42"), ("failed"), true, some .error,
   some .validation, some [], some ("act_1"), some .retry, some ("oops"), none⟩

/-- An Ask that never sets any optional field. -/
def cAskMin : Ask :=
  ⟨⟨("act_1"), ("2025-01-15T14:30:00Z"), ("agent"), .ask, none, none, none⟩,
   ("email"), ("What is your email?"), none, none, none, none, none⟩

end Astra

namespace Astra

/-! ### Infrastructure lemmas -/

theorem obind_some (a : α) (f : α → Option β) : Option.bind (some a) f = f a := rfl

theorem optOf_ne_null (g : Json → Option α) (v : Json) (h : v ≠ Json.null) :
    optOf g v = (g v).map some := by
  cases v <;> first | exact absurd rfl h | rfl

theorem optOf_optJ (f : Json → Option α) (g : α → Json) (x : Option α)
    (hg : ∀ a, g a ≠ Json.null) (h : ∀ a, x = some a → f (g a) = some a) :
    optOf f (optJ g x) = some x := by
  cases x with
  | none => rfl
  | some a =>
    show optOf f (g a) = some (some a)
    rw [optOf_ne_null f (g a) (hg a), h a rfl]
    rfl

theorem pList_map (f : Json → Option α) (g : α → Json) (l : List α)
    (h : ∀ a ∈ l, f (g a) = some a) : pList f (l.map g) = some l := by
  induction l with
  | nil => rfl
  | cons a t ih =>
    have ha := h a (by simp)
    have ht := ih (fun b hb => h b (by simp [hb]))
    simp [pList, ha, ht]

theorem actType_parse_tag (t : ActType) : ActType.parse t.tag = some t := by
  cases t <;> rfl

theorem source_parse_tag (t : Source) : Source.parse t.tag = some t := by
  cases t <;> rfl

theorem constraintType_parse_tag (t : ConstraintType) :
    ConstraintType.parse t.tag = some t := by
  cases t <;> rfl

theorem expectedType_parse_tag (t : ExpectedType) : ExpectedType.parse t.tag = some t := by
  cases t <;> rfl

theorem fieldOperation_parse_tag (t : FieldOperation) :
    FieldOperation.parse t.tag = some t := by
  cases t <;> rfl

theorem validationStatus_parse_tag (t : ValidationStatus) :
    ValidationStatus.parse t.tag = some t := by
  cases t <;> rfl

theorem confirmationMethod_parse_tag (t : ConfirmationMethod) :
    ConfirmationMethod.parse t.tag = some t := by
  cases t <;> rfl

theorem commitAction_parse_tag (t : CommitAction) : CommitAction.parse t.tag = some t := by
  cases t <;> rfl

theorem commitStatus_parse_tag (t : CommitStatus) : CommitStatus.parse t.tag = some t := by
  cases t <;> rfl

theorem errorSeverity_parse_tag (t : ErrorSeverity) :
    ErrorSeverity.parse t.tag = some t := by
  cases t <;> rfl

theorem errorCategory_parse_tag (t : ErrorCategory) :
    ErrorCategory.parse t.tag = some t := by
  cases t <;> rfl

theorem suggestedAction_parse_tag (t : SuggestedAction) :
    SuggestedAction.parse t.tag = some t := by
  cases t <;> rfl

/-! ### Field-level decode/encode roundtrips -/

theorem optOf_str (x : Option String) : optOf asStr (optJ Json.str x) = some x :=
  optOf_optJ _ _ _ (fun _ h => Json.noConfusion h) (fun _ _ => rfl)

theorem optOf_bool (x : Option Bool) : optOf asBool (optJ Json.bool x) = some x :=
  optOf_optJ _ _ _ (fun _ h => Json.noConfusion h) (fun _ _ => rfl)

theorem optOf_rat (x : Option ℚ) : optOf asRat (optJ Json.num x) = some x :=
  optOf_optJ _ _ _ (fun _ h => Json.noConfusion h) (fun _ _ => rfl)

theorem optOf_rat01 (x : Option ℚ) (hx : optPred (fun q => 0 ≤ q ∧ q ≤ 1) x) :
    optOf asRat01 (optJ Json.num x) = some x := by
  refine optOf_optJ _ _ _ (fun _ h => Json.noConfusion h) (fun q hq => ?_)
  subst hq
  show (if 0 ≤ q ∧ q ≤ 1 then some q else none) = some q
  exact if_pos hx

theorem asInt_intJ (n : ℤ) : asInt (intJ n) = some n := by
  simp [asInt, intJ, Rat.den_intCast, Rat.num_intCast]

theorem optOf_int (x : Option ℤ) : optOf asInt (optJ intJ x) = some x :=
  optOf_optJ _ _ _ (fun _ h => Json.noConfusion h) (fun _ _ => asInt_intJ _)

theorem asIntGe0_intJ (n : ℤ) (hn : 0 ≤ n) : asIntGe0 (intJ n) = some n := by
  simp [asIntGe0, intJ, Rat.den_intCast, Rat.num_intCast, hn]

theorem optOf_intGe0 (x : Option ℤ) (hx : optPred (fun n : ℤ => 0 ≤ n) x) :
    optOf asIntGe0 (optJ intJ x) = some x := by
  refine optOf_optJ _ _ _ (fun _ h => Json.noConfusion h) (fun n hn => ?_)
  subst hn
  exact asIntGe0_intJ n hx

theorem optOf_enum (tag : α → String) (parse : String → Option α)
    (hpt : ∀ t, parse (tag t) = some t) (x : Option α) :
    optOf (asEnum parse) (optJ (fun e => Json.str (tag e)) x) = some x :=
  optOf_optJ _ _ _ (fun _ h => Json.noConfusion h) (fun t _ => hpt t)

theorem optOf_objKVs (x : Option (List (String × Json))) :
    optOf asObjKVs (optJ Json.obj x) = some x :=
  optOf_optJ _ _ _ (fun _ h => Json.noConfusion h) (fun _ _ => rfl)

theorem asStrList_enc (l : List String) : asStrList (Json.arr (l.map Json.str)) = some l := by
  simp only [asStrList]
  exact pList_map _ _ _ (fun _ _ => rfl)

theorem optOf_strList (x : Option (List String)) :
    optOf asStrList (optJ (fun l => Json.arr (l.map Json.str)) x) = some x :=
  optOf_optJ _ _ _ (fun _ h => Json.noConfusion h) (fun _ _ => asStrList_enc _)

theorem filter_extras (ex : List (String × Json)) (names : List String)
    (h : disjointFrom ex names) :
    List.filter (fun p => !decide (p.1 ∈ names)) ex = ex := by
  refine List.filter_eq_self.mpr (fun p hp => ?_)
  have hc : ¬ p.1 ∈ names := by simpa using h p hp
  simp [hc]

theorem actMetadata_kvs_roundtrip (m : ActMetadata) (h : m.Valid) :
    ActMetadata.validateKVs m.encodeKVs = some m := by
  obtain ⟨ch, lg, ot, pt, ex⟩ := m
  have hex := filter_extras ex ActMetadata.fieldNames h
  simp only [ActMetadata.fieldNames] at hex
  simp [ActMetadata.validateKVs, ActMetadata.encodeKVs, getOpt, jget,
        optOf_str, optOf_int, ActMetadata.fieldNames, hex]
  intro a b hab
  simpa [ActMetadata.fieldNames] using h (a, b) hab

theorem actMetadata_roundtrip (m : ActMetadata) (h : m.Valid) :
    ActMetadata.validate m.encode = some m :=
  actMetadata_kvs_roundtrip m h

theorem optOf_meta (x : Option ActMetadata) (hx : optPred ActMetadata.Valid x) :
    optOf ActMetadata.validate (optJ ActMetadata.encode x) = some x :=
  optOf_optJ _ _ _ (fun m hm => by simp [ActMetadata.encode] at hm)
    (fun m hm => actMetadata_roundtrip m (by rw [hm] at hx; exact hx))

theorem entity_kvs_roundtrip (e : Entity) (h : e.Valid) :
    Entity.validateKVs e.encodeKVs = some e := by
  obtain ⟨i, t, xi, sy, ve, su, md, ex⟩ := e
  have hex := filter_extras ex Entity.fieldNames h
  simp only [Entity.fieldNames] at hex
  simp [Entity.validateKVs, Entity.encodeKVs, getReq, getOpt, jget, asStr,
        optOf_str, optOf_objKVs, Entity.fieldNames, hex]
  intro a b hab
  simpa [Entity.fieldNames] using h (a, b) hab

theorem entity_roundtrip (e : Entity) (h : e.Valid) :
    Entity.validate e.encode = some e :=
  entity_kvs_roundtrip e h

theorem entityRef_roundtrip (r : EntityRef) (h : r.Valid) :
    EntityRef.validate r.encode = some r := by
  cases r with
  | ref s => rfl
  | ent e =>
    show EntityRef.validate (Entity.encode e) = some (.ent e)
    simp [Entity.encode, EntityRef.validate, entity_kvs_roundtrip e h]

theorem rangeConstraint_kvs_roundtrip (r : RangeConstraint) :
    RangeConstraint.validateKVs
      [(("min"), optJ Json.num r.min), (("max"), optJ Json.num r.max),
       (("inclusive"), optJ Json.bool r.inclusive)] = some r := by
  obtain ⟨mn, mx, inc⟩ := r
  simp [RangeConstraint.validateKVs, getOpt, getOptDef, jget, optOf_rat, optOf_bool]

theorem cvalue_encode_ne_null (v : CValue) : v.encode ≠ Json.null := by
  cases v <;> simp [CValue.encode, intJ, RangeConstraint.encode]

theorem cvalue_roundtrip (v : CValue) (h : v.Valid) :
    CValue.parse v.encode = some v := by
  cases v with
  | i n => simp [CValue.parse, CValue.encode, intJ, Rat.den_intCast, Rat.num_intCast]
  | f q =>
    have hq : q.den ≠ 1 := h
    simp [CValue.parse, CValue.encode, hq]
  | txt s => rfl
  | range r => simp [CValue.parse, CValue.encode, RangeConstraint.encode,
                     rangeConstraint_kvs_roundtrip]
  | list l =>
    simp [CValue.parse, CValue.encode, pList_map asStr Json.str l (fun _ _ => rfl)]

theorem constraint_roundtrip (c : Constraint) (h : c.Valid) :
    Constraint.validate c.encode = some c := by
  obtain ⟨ty, v, msg, code⟩ := c
  have hv : optOf CValue.parse (optJ CValue.encode v) = some v :=
    optOf_optJ _ _ _ cvalue_encode_ne_null
      (fun a ha => cvalue_roundtrip a (by rw [ha] at h; exact h))
  simp [Constraint.encode, Constraint.validate, Constraint.validateKVs, getReq, getOpt,
        jget, asEnum, constraintType_parse_tag, optOf_str, hv]

theorem optOf_constraints (x : Option (List Constraint))
    (hx : optPred (fun l => ∀ c ∈ l, c.Valid) x) :
    optOf asConstraintList (optJ (fun l => Json.arr (l.map Constraint.encode)) x) = some x := by
  refine optOf_optJ _ _ _ (fun _ hm => Json.noConfusion hm) (fun l hl => ?_)
  rw [hl] at hx
  simp only [asConstraintList]
  exact pList_map _ _ _ (fun c hc => constraint_roundtrip c (hx c hc))

theorem commitError_roundtrip (e : CommitError) :
    CommitError.validate e.encode = some e := by
  obtain ⟨code, msg, det, rcv⟩ := e
  simp [CommitError.encode, CommitError.validate, getReq, getOpt, jget, asStr, asBool,
        optOf_objKVs]

theorem optOf_commitError (x : Option CommitError) :
    optOf CommitError.validate (optJ CommitError.encode x) = some x :=
  optOf_optJ _ _ _ (fun e hm => by simp [CommitError.encode] at hm)
    (fun e _ => commitError_roundtrip e)

/-- The inherited `Act` fields of every variant's `model_dump` re-parse to
the original base value, whatever the variant-specific tail and the
defaulted tag: the seven base keys sit in the dump's prefix. -/
theorem parseBase_enc (b : Act) (h : b.Valid) (tail : List (String × Json)) (d : ActType) :
    parseBase
      ((("id"), Json.str b.id) ::
       (("timestamp"), Json.str b.timestamp) ::
       (("speaker"), Json.str b.speaker) ::
       (("type"), Json.str b.type.tag) ::
       (("confidence"), optJ Json.num b.confidence) ::
       (("source"), optJ (fun s => Json.str s.tag) b.source) ::
       (("metadata"), optJ ActMetadata.encode b.metadata) :: tail) d = some b := by
  obtain ⟨i, t, s, ty, cf, src, md⟩ := b
  obtain ⟨hcf, hmd⟩ := h
  simp [parseBase, getReq, getReqDef, getOpt, jget, asStr, asEnum, actType_parse_tag,
        optOf_rat01 cf hcf, optOf_enum Source.tag Source.parse source_parse_tag src,
        optOf_meta md hmd]

/-! ### Roundtrip of the five act variants -/

theorem ask_roundtrip (a : Ask) (h : a.Valid) : Ask.validate a.encode = some a := by
  obtain ⟨b, fld, pr, cs, rq, et, rc, mr⟩ := a
  obtain ⟨hb, hcs, hrc, hmr⟩ := h
  simp [Ask.encode, Ask.validate, Ask.encodeKVs, Ask.keys, Act.keys, checkClosed,
        getReq, getOpt, jget, asStr, parseBase_enc b hb, optOf_bool,
        optOf_constraints cs hcs,
        optOf_enum ExpectedType.tag ExpectedType.parse expectedType_parse_tag et,
        optOf_intGe0 rc hrc, optOf_intGe0 mr hmr]

theorem fact_roundtrip (a : Fact) (h : a.Valid) : Fact.validate a.encode = some a := by
  obtain ⟨b, ent, fld, v, op, pv, vs, ve⟩ := a
  obtain ⟨hb, hent⟩ := h
  simp [Fact.encode, Fact.validate, Fact.encodeKVs, Fact.keys, Act.keys, checkClosed,
        getReq, getOpt, jget, asStr, parseBase_enc b hb,
        entityRef_roundtrip ent hent,
        optOf_enum FieldOperation.tag FieldOperation.parse fieldOperation_parse_tag op,
        optOf_enum ValidationStatus.tag ValidationStatus.parse validationStatus_parse_tag vs,
        optOf_strList]

theorem confirm_roundtrip (a : Confirm) (h : a.Valid) :
    Confirm.validate a.encode = some a := by
  obtain ⟨b, ent, sm, aw, cfd, cm, fc, rr, tm⟩ := a
  obtain ⟨hb, hent, htm⟩ := h
  simp [Confirm.encode, Confirm.validate, Confirm.encodeKVs, Confirm.keys, Act.keys,
        checkClosed, getReq, getOpt, jget, asStr, optOf_str, parseBase_enc b hb,
        entityRef_roundtrip ent hent, optOf_bool,
        optOf_enum ConfirmationMethod.tag ConfirmationMethod.parse
          confirmationMethod_parse_tag cm,
        optOf_strList, optOf_intGe0 tm htm]

theorem commit_roundtrip (a : Commit) (h : a.Valid) :
    Commit.validate a.encode = some a := by
  obtain ⟨b, ent, act, sys, tx, st, er, rc, mr, ik, rb⟩ := a
  obtain ⟨hb, hent, hrc, hmr⟩ := h
  simp [Commit.encode, Commit.validate, Commit.parseTarget, Commit.encodeKVs,
        Commit.keys, Act.keys, checkClosed, getReq, getOpt, jget, asStr, asEnum,
        optOf_str, parseBase_enc b hb, entityRef_roundtrip ent hent,
        commitAction_parse_tag,
        optOf_enum CommitStatus.tag CommitStatus.parse commitStatus_parse_tag st,
        optOf_commitError, optOf_intGe0 rc hrc, optOf_intGe0 mr hmr,
        optOf_objKVs]

theorem error_roundtrip (a : Error) (h : a.Valid) :
    Error.validate a.encode = some a := by
  obtain ⟨b, code, msg, rcv, sev, cat, det, rel, sa, um, stk⟩ := a
  simp [Error.encode, Error.validate, Error.parseReport, Error.encodeKVs, Error.keys,
        Act.keys, checkClosed, getReq, getOpt, jget, asStr, asBool, optOf_str,
        parseBase_enc b h,
        optOf_enum ErrorSeverity.tag ErrorSeverity.parse errorSeverity_parse_tag sev,
        optOf_enum ErrorCategory.tag ErrorCategory.parse errorCategory_parse_tag cat,
        optOf_enum SuggestedAction.tag SuggestedAction.parse suggestedAction_parse_tag sa,
        optOf_objKVs]

/-! ### Python dict semantics lemmas (for `create_base_act`) -/

theorem jget_eq_none (d : List (String × Json)) (k : String) (h : ¬ k ∈ keysOf d) :
    jget d k = none := by
  induction d with
  | nil => rfl
  | cons p t ih =>
    obtain ⟨k₀, v₀⟩ := p
    simp only [keysOf, List.map_cons, List.mem_cons] at h
    push_neg at h
    simp only [jget, if_neg h.1]
    exact ih (by simpa [keysOf] using h.2)

theorem jget_isSome_of_mem (d : List (String × Json)) (k : String) (h : k ∈ keysOf d) :
    (jget d k).isSome := by
  induction d with
  | nil => simp [keysOf] at h
  | cons p t ih =>
    obtain ⟨k₀, v₀⟩ := p
    by_cases hk : k = k₀
    · simp [jget, hk]
    · simp only [keysOf, List.map_cons, List.mem_cons] at h
      rcases h with h | h
      · exact absurd h hk
      · simpa [jget, hk] using ih (by simpa [keysOf] using h)

theorem jget_append (d₁ d₂ : List (String × Json)) (k : String) :
    jget (d₁ ++ d₂) k = (jget d₁ k).orElse (fun _ => jget d₂ k) := by
  induction d₁ with
  | nil => rfl
  | cons p t ih =>
    obtain ⟨k₀, v₀⟩ := p
    by_cases hk : k = k₀ <;> simp [jget, hk, ih]

theorem jget_map_set (d : List (String × Json)) (k' : String) (v : Json) (k : String) :
    jget (d.map (fun p => (p.1, if p.1 = k' then v else p.2))) k =
      if k = k' then (jget d k').map (fun _ => v) else jget d k := by
  induction d with
  | nil => simp [jget]
  | cons p t ih =>
    obtain ⟨k₀, v₀⟩ := p
    by_cases h1 : k = k₀
    · subst h1
      by_cases h2 : k = k'
      · subst h2
        simp [jget]
      · simp [jget, h2]
    · by_cases h2 : k = k'
      · subst h2
        by_cases h3 : k₀ = k
        · exact absurd h3.symm h1
        · simp [jget, h1, h3, ih]
      · simp [jget, h1, h2, ih]

theorem jget_pyDictSet (d : List (String × Json)) (k' : String) (v : Json) (k : String) :
    jget (pyDictSet d k' v) k = if k = k' then some v else jget d k := by
  unfold pyDictSet
  by_cases hc : (keysOf d).contains k'
  · rw [if_pos hc, jget_map_set]
    by_cases hk : k = k'
    · subst hk
      have hm : k ∈ keysOf d := by simpa using hc
      obtain ⟨w, hw⟩ := Option.isSome_iff_exists.mp (jget_isSome_of_mem d k hm)
      simp [hw]
    · simp [hk]
  · rw [if_neg hc, jget_append]
    by_cases hk : k = k'
    · subst hk
      have hm : ¬ k ∈ keysOf d := by simpa using hc
      simp [jget_eq_none d k hm, jget]
    · simp [jget, hk]

theorem jget_pyDictUpdate (upd : List (String × Json)) :
    ∀ (d : List (String × Json)) (k : String), (keysOf upd).Nodup →
      jget (pyDictUpdate d upd) k = (jget upd k).orElse (fun _ => jget d k) := by
  induction upd with
  | nil => intro d k _; rfl
  | cons p rest ih =>
    intro d k hnd
    obtain ⟨k₀, v₀⟩ := p
    simp only [keysOf, List.map_cons, List.nodup_cons] at hnd
    have step : pyDictUpdate d ((k₀, v₀) :: rest) = pyDictUpdate (pyDictSet d k₀ v₀) rest := rfl
    rw [step, ih (pyDictSet d k₀ v₀) k (by simpa [keysOf] using hnd.2)]
    by_cases hk : k = k₀
    · subst hk
      have hnone : jget rest k = none :=
        jget_eq_none rest k (by simpa [keysOf] using hnd.1)
      simp [jget, hnone, jget_pyDictSet]
    · simp [jget, hk, jget_pyDictSet]

/-! ### Constraint engine: ordered, non-fail-fast evaluation -/

theorem validateConstraints_eq_filter (rm fm : String → String → Bool)
    (cs : List Constraint) (cand : Json) :
    validateConstraints rm fm cs cand = cs.filter (violatesC rm fm cand) := by
  induction cs with
  | nil => rfl
  | cons c rest ih =>
    by_cases h : violatesC rm fm cand c <;>
      simp [validateConstraints, List.filter_cons, h, ih]

theorem checkClosed_none (kvs : List (String × Json)) (allowed : List String)
    (h : ∃ k ∈ keysOf kvs, allowed.contains k = false) : checkClosed kvs allowed = none := by
  obtain ⟨k, hk, hc⟩ := h
  obtain ⟨p, hp, rfl⟩ := List.mem_map.mp hk
  unfold checkClosed
  rw [if_neg]
  intro hall
  rw [List.all_eq_true] at hall
  have ht := hall p hp
  rw [ht] at hc
  exact Bool.noConfusion hc

/-! ### Claims -/

/-- Claim C1 (code bug witness): the in-memory `Entity` and `Participant`
models are `extra="allow"` and accept a JSON object with an unrecognized
key, while `SCHEMAS["entity"]` and `SCHEMAS["participant"]` set
`additionalProperties: False` and reject the very same object — so the
claimed model/schema agreement on unknown-key acceptance fails. -/
theorem c1_entity_participant_openness_drift :
    (Entity.validate (Json.obj [(("id"), Json.str ("ent_1")), (("type"), Json.str ("customer")),
        (("custom_tag"), Json.bool true)])).isSome = true
  ∧ entitySchemaAccepts (Json.obj [(("id"), Json.str ("ent_1")), (("type"), Json.str ("customer")),
        (("custom_tag"), Json.bool true)]) = false
  ∧ (Participant.validate (Json.obj [(("id"), Json.str ("p1")), (("type"), Json.str ("human")),
        (("custom_tag"), Json.bool true)])).isSome = true
  ∧ participantSchemaAccepts (Json.obj [(("id"), Json.str ("p1")), (("type"), Json.str ("human")),
        (("custom_tag"), Json.bool true)]) = false :=
  ⟨rfl, rfl, rfl, rfl⟩

/-- Claim C2 (code bug witness): each variant's `type` is a *defaulted*
field, not an enforced constant — an Ask payload whose `type` is `"fact"`
validates successfully (yielding `type = fact`), and a payload with no
`type` at all also validates (defaulting to `ask`), where the claim (and
the schema documents' `const`) demand rejection. -/
theorem c2_variant_tag_not_enforced :
    (Ask.validate (Json.obj [(("id"), Json.str ("act_1")),
        (("timestamp"), Json.str ("2025-01-15T14:30:00Z")), (("speaker"), Json.str ("agent")),
        (("type"), Json.str ("fact")), (("field"), Json.str ("email")),
        (("prompt"), Json.str ("What is your email?"))])).map (fun a => a.type)
      = some ActType.fact
  ∧ (Ask.validate (Json.obj [(("id"), Json.str ("act_1")),
        (("timestamp"), Json.str ("2025-01-15T14:30:00Z")), (("speaker"), Json.str ("agent")),
        (("field"), Json.str ("email")),
        (("prompt"), Json.str ("What is your email?"))])).map (fun a => a.type)
      = some ActType.ask :=
  ⟨rfl, rfl⟩

/-- Claim C3 (code bug witness): the `Conversation` model declares no
pattern on `id` and no minimum length on `participants`, so construction
*succeeds* on an empty participant list and a non-conforming id (the
schema document would reject both); the positive half of the claim — one
participant, conforming id, `acts: []` gives `acts.length = 0` — does
hold. -/
theorem c3_conversation_invariants_not_enforced :
    (Conversation.validate (Json.obj [(("id"), Json.str ("not-a-conversation-id")),
        (("participants"), Json.arr []), (("acts"), Json.arr [])])).isSome = true
  ∧ conversationSchemaAccepts (Json.obj [(("id"), Json.str ("not-a-conversation-id")),
        (("participants"), Json.arr []), (("acts"), Json.arr [])]) = false
  ∧ (Conversation.validate (Json.obj [(("id"), Json.str ("conv_1")),
        (("participants"), Json.arr [Json.obj [(("id"), Json.str ("p1")),
          (("type"), Json.str ("human"))]]),
        (("acts"), Json.arr [])])).map (fun c => c.acts.length) = some 0 :=
  ⟨rfl, rfl, rfl⟩

/-- Claim C4 (code bug witness): `required`, `retry_count` and
`max_retries` are declared `Optional[...] = Field(None, ...)`, so an Ask
decoded without them carries `None` for all three — not the
`true`/`0`/`3` the claim (and the schema documents' `default`
annotations) state. -/
theorem c4_ask_defaults_are_none :
    (Ask.validate (Json.obj [(("id"), Json.str ("act_1")),
        (("timestamp"), Json.str ("2025-01-15T14:30:00Z")), (("speaker"), Json.str ("agent")),
        (("type"), Json.str ("ask")), (("field"), Json.str ("email")),
        (("prompt"), Json.str ("What is your email?"))])).map
      (fun a => (a.required, a.retry_count, a.max_retries)) = some (none, none, none) :=
  rfl

/-- Claim C5: validating an Act or Conversation JSON object carrying an
unknown top-level key fails (`extra="forbid"`), while an unknown key
inside the open sub-records — `ActMetadata`, `ConversationContext`, an
entity's `metadata` dict — is accepted and survives decode followed by
re-encode. -/
theorem c5_closed_records_open_metadata :
    (∀ kvs, (∃ k ∈ keysOf kvs, Act.keys.contains k = false) →
      (Act.validate (Json.obj kvs)).isSome = false)
  ∧ (∀ kvs, (∃ k ∈ keysOf kvs, Conversation.keys.contains k = false) →
      (Conversation.validate (Json.obj kvs)).isSome = false)
  ∧ (∀ k v, ¬ k ∈ ActMetadata.fieldNames →
      ∃ m, ActMetadata.validate (Json.obj [(k, v)]) = some m ∧ jget m.encodeKVs k = some v)
  ∧ (∀ k v, ¬ k ∈ ConversationContext.fieldNames →
      ∃ c, ConversationContext.validate (Json.obj [(k, v)]) = some c ∧
        jget c.encodeKVs k = some v)
  ∧ (∀ k v, ∃ e, Entity.validate (Json.obj [(("id"), Json.str ("e1")),
        (("type"), Json.str ("t")), (("metadata"), Json.obj [(k, v)])]) = some e ∧
        e.metadata = some [(k, v)] ∧ jget e.encodeKVs ("metadata") = some (Json.obj [(k, v)])) := by
  refine ⟨?_, ?_, ?_, ?_, ?_⟩
  · intro kvs h
    simp [Act.validate, checkClosed_none kvs Act.keys h]
  · intro kvs h
    simp [Conversation.validate, checkClosed_none kvs Conversation.keys h]
  · intro k v hk
    simp [ActMetadata.fieldNames] at hk
    push_neg at hk
    obtain ⟨h1, h2, h3, h4⟩ := hk
    refine ⟨⟨none, none, none, none, [(k, v)]⟩, ?_, ?_⟩
    · simp [ActMetadata.validate, ActMetadata.validateKVs, getOpt, jget,
            ActMetadata.fieldNames, Ne.symm h1, Ne.symm h2, Ne.symm h3, Ne.symm h4,
            h1, h2, h3, h4]
    · simp [ActMetadata.encodeKVs, jget, h1, h2, h3, h4]
  · intro k v hk
    simp [ConversationContext.fieldNames] at hk
    push_neg at hk
    obtain ⟨h1, h2, h3, h4⟩ := hk
    refine ⟨⟨none, none, none, none, [(k, v)]⟩, ?_, ?_⟩
    · simp [ConversationContext.validate, getOpt, jget,
            ConversationContext.fieldNames, Ne.symm h1, Ne.symm h2, Ne.symm h3, Ne.symm h4,
            h1, h2, h3, h4]
    · simp [ConversationContext.encodeKVs, jget, h1, h2, h3, h4]
  · intro k v
    exact ⟨⟨("e1"), ("t"), none, none, none, none, some [(k, v)], []⟩, rfl, rfl, rfl⟩

theorem c5_closed_records_open_metadata_witness :
    ((Act.validate (Json.obj [(("id"), Json.str ("act_1")),
        (("bogus_key"), Json.bool true)])).isSome = false)
  ∧ ((Conversation.validate (Json.obj [(("id"), Json.str ("conv_1")),
        (("bogus_key"), Json.bool true)])).isSome = false)
  ∧ (∃ m, ActMetadata.validate (Json.obj [(("trace_id"), Json.bool true)]) = some m ∧
        jget m.encodeKVs ("trace_id") = some (Json.bool true))
  ∧ (∃ c, ConversationContext.validate (Json.obj [(("trace_id"), Json.bool true)]) = some c ∧
        jget c.encodeKVs ("trace_id") = some (Json.bool true))
  ∧ (∃ e, Entity.validate (Json.obj [(("id"), Json.str ("e1")), (("type"), Json.str ("t")),
        (("metadata"), Json.obj [(("rank"), Json.num 7)])]) = some e ∧
        e.metadata = some [(("rank"), Json.num 7)] ∧
        jget e.encodeKVs ("metadata") = some (Json.obj [(("rank"), Json.num 7)])) :=
  ⟨c5_closed_records_open_metadata.1 _ ⟨("bogus_key"), by decide, by decide⟩,
   c5_closed_records_open_metadata.2.1 _ ⟨("bogus_key"), by decide, by decide⟩,
   c5_closed_records_open_metadata.2.2.1 ("trace_id") (Json.bool true) (by decide),
   c5_closed_records_open_metadata.2.2.2.1 ("trace_id") (Json.bool true) (by decide),
   c5_closed_records_open_metadata.2.2.2.2 ("rank") (Json.num 7)⟩

/-- Claim C6 counterexample: an Ask that never set its optional
`constraints` field re-encodes with `constraints` *present and null* —
`model_dump` emits `None` fields as explicit `null` — refuting the
claimed "re-encodes as absent (not null)". -/
theorem c6_unset_optional_encodes_null :
    jget cAskMin.encodeKVs ("constraints") = some Json.null := rfl

/-- Claim C6 (amended): for every valid act value of any of the five
variants, decoding its encoding yields the value back; an optional field
that was never set re-encodes as explicitly `null` (present), and a Fact
whose `value` is `null` re-encodes with `value` present and `null`. -/
theorem c6_roundtrip_amended :
    (∀ a : Ask, a.Valid → Ask.validate a.encode = some a)
  ∧ (∀ a : Fact, a.Valid → Fact.validate a.encode = some a)
  ∧ (∀ a : Confirm, a.Valid → Confirm.validate a.encode = some a)
  ∧ (∀ a : Commit, a.Valid → Commit.validate a.encode = some a)
  ∧ (∀ a : Error, a.Valid → Error.validate a.encode = some a)
  ∧ (∀ a : Ask, a.constraints = none → jget a.encodeKVs ("constraints") = some Json.null)
  ∧ (∀ a : Fact, a.value = Json.null → jget a.encodeKVs ("value") = some Json.null) :=
  ⟨ask_roundtrip, fact_roundtrip, confirm_roundtrip,
   commit_roundtrip, error_roundtrip,
   fun a h => by simp [Ask.encodeKVs, jget, optJ, h],
   fun a h => by simp [Fact.encodeKVs, jget, h]⟩

theorem c6_roundtrip_amended_witness :
    Ask.validate cAsk.encode = some cAsk
  ∧ Fact.validate cFact.encode = some cFact
  ∧ Confirm.validate cConfirm.encode = some cConfirm
  ∧ Commit.validate cCommit.encode = some cCommit
  ∧ Error.validate cError.encode = some cError
  ∧ jget cAskMin.encodeKVs ("retry_count") = some Json.null
  ∧ jget cFact.encodeKVs ("value") = some Json.null :=
  ⟨c6_roundtrip_amended.1 cAsk (by decide),
   c6_roundtrip_amended.2.1 cFact (by decide),
   c6_roundtrip_amended.2.2.1 cConfirm (by decide),
   c6_roundtrip_amended.2.2.2.1 cCommit (by decide),
   c6_roundtrip_amended.2.2.2.2.1 cError (by decide),
   c6_roundtrip_amended.2.2.2.2.2.1 cAskMin rfl,
   c6_roundtrip_amended.2.2.2.2.2.2 cFact rfl⟩

/-- Claim C7 (code bug witness): a Conversation document using the
property `schema` — the name `SCHEMAS["conversation"]` declares — is
accepted by that schema but rejected by the in-memory model, whose
`extra="forbid"` record declares `business_schema` instead; schema/model
parity fails. -/
theorem c7_schema_model_parity_fails :
    conversationSchemaAccepts (Json.obj [(("id"), Json.str ("conv_1")),
        (("participants"), Json.arr [Json.obj [(("id"), Json.str ("p1")),
          (("type"), Json.str ("human"))]]),
        (("acts"), Json.arr []), (("schema"), Json.str ("order_v1"))]) = true
  ∧ (Conversation.validate (Json.obj [(("id"), Json.str ("conv_1")),
        (("participants"), Json.arr [Json.obj [(("id"), Json.str ("p1")),
          (("type"), Json.str ("human"))]]),
        (("acts"), Json.arr []), (("schema"), Json.str ("order_v1"))])).isSome = false :=
  ⟨rfl, rfl⟩

/-- Claim C8: EntityRef decoding — every JSON string decodes to the
bare-identifier variant (so no promotion to the structured form ever
happens), the two-field object decodes to the structured Entity with the
right `id`, an object missing `type` fails, and arrays and numbers always
fail. -/
theorem c8_entityref_decode :
    (∀ s, EntityRef.validate (Json.str s) = some (.ref s))
  ∧ EntityRef.validate (Json.obj [(("id"), Json.str ("customer_123")),
      (("type"), Json.str ("customer"))]) =
      some (.ent ⟨("customer_123"), ("customer"), none, none, none, none, none, []⟩)
  ∧ (EntityRef.validate (Json.obj [(("id"), Json.str ("x"))])).isSome = false
  ∧ (∀ xs, (EntityRef.validate (Json.arr xs)).isSome = false)
  ∧ (∀ q, (EntityRef.validate (Json.num q)).isSome = false) :=
  ⟨fun _ => rfl, rfl, rfl, fun _ => rfl, fun _ => rfl⟩

/-- Claim C9 (spec-modelled): the constraint-validation operation
evaluates every constraint independently in list order — it equals a
filter by the per-constraint violation predicate, never fail-fast — and
on `[required, min_length 5]` the candidate `""` yields exactly those two
violations, `"hi"` exactly the `min_length` one, and `"hello!"` none,
whatever the external regex/format predicates. -/
theorem c9_constraint_validation :
    (∀ rm fm cs cand, validateConstraints rm fm cs cand = cs.filter (violatesC rm fm cand))
  ∧ (∀ rm fm, validateConstraints rm fm
      [⟨.required, none, none, none⟩, ⟨.min_length, some (.i 5), none, none⟩]
      (Json.str ("")) =
      [⟨.required, none, none, none⟩, ⟨.min_length, some (.i 5), none, none⟩])
  ∧ (∀ rm fm, validateConstraints rm fm
      [⟨.required, none, none, none⟩, ⟨.min_length, some (.i 5), none, none⟩]
      (Json.str ("hi")) = [⟨.min_length, some (.i 5), none, none⟩])
  ∧ (∀ rm fm, validateConstraints rm fm
      [⟨.required, none, none, none⟩, ⟨.min_length, some (.i 5), none, none⟩]
      (Json.str ("hello!")) = []) :=
  ⟨validateConstraints_eq_filter, fun _ _ => rfl, fun _ _ => rfl, fun _ _ => rfl⟩

/-- Claim C10: `create_base_act` returns exactly the generated base dict
`{id, timestamp, speaker, type}` updated with the caller's additional
fields under Python `dict.update` semantics — for every key, the caller's
entry takes precedence over the generated or argument-supplied one. -/
theorem c10_create_base_act (u n s : String) (aty : ActType)
    (add : List (String × Json)) (h : (keysOf add).Nodup) :
    create_base_act u n s aty (some add) = pyDictUpdate (baseActFields u n s aty) add
  ∧ create_base_act u n s aty none = baseActFields u n s aty
  ∧ ∀ k, jget (create_base_act u n s aty (some add)) k =
      (jget add k).orElse (fun _ => jget (baseActFields u n s aty) k) :=
  ⟨rfl, rfl, fun k => jget_pyDictUpdate add _ k h⟩

theorem c10_create_base_act_witness :
    jget (create_base_act ("123e4567-e89b-12d3-a456-426614174000")
      ("2025-01-15T14:30:00") ("agent") ActType.ask
      (some [(("confidence"), Json.num (9 / 10)), (("id"), Json.str ("act_custom"))]))
      ("id") = some (Json.str ("act_custom")) := by
  rw [(c10_create_base_act ("123e4567-e89b-12d3-a456-426614174000")
    ("2025-01-15T14:30:00") ("agent") ActType.ask
    [(("confidence"), Json.num (9 / 10)), (("id"), Json.str ("act_custom"))]
    (by decide)).2.2 ("id")]
  rfl

end Astra
